import Mathlib

/-!
Shallow embedding of the staged query-lifecycle orchestrator of the
AI-research-assistant frontend (the Supabase-backed `HomePage` component,
together with `SearchForm`, the render logic, and the chat-message /
chat-session persistence helpers).

The embedding models the component state as an explicit `AppState`,
asynchronous work as explicit in-flight request records resolved by
events, and the stage-advancement `useEffect` as a function applied after
every state change whose dependencies changed.  Database success or
failure of each Supabase call is an event parameter, since the remote
store may fail any call.
-/

namespace Repello

set_option maxRecDepth 100000

/-! ## Data model (frontend/types.ts) -/

structure SearchResultItem where
  title : String
  url : String
  content : Option String
deriving DecidableEq, Repr

structure FetchedLinksResponse where
  query : String
  results : List SearchResultItem
  total_results : Option Nat
deriving DecidableEq, Repr

structure AnalysisItem where
  question : String
  analysis_content : String
deriving DecidableEq, Repr

structure AiResponse where
  sub_questions : List String
  analysis : List AnalysisItem
  synthesis : List String
  final_answer : List String
  sources : List String
deriving DecidableEq, Repr

inductive DisplayStage where
  | idle
  | fetchingLinks
  | gatheringLinks
  | fetchingAiAnalysis
  | subquestions
  | analysis
  | synthesis
  | final
  | error
deriving DecidableEq, Repr

/-- A stage is terminal when the owning message will not advance further. -/
def DisplayStage.isTerminal : DisplayStage → Bool
  | DisplayStage.final => true
  | DisplayStage.error => true
  | _ => false

/-- Message identifiers: database row ids, or the `local-...` fallback ids
minted when the initial insert fails. -/
inductive MsgId where
  | dbId (n : Nat)
  | localId (n : Nat)
deriving DecidableEq, Repr

structure ChatMessage where
  id : MsgId
  session_id : Option Nat
  user_id : Option Nat
  query : String
  response : Option AiResponse
  fetchedLinks : Option FetchedLinksResponse
  error : Option String
  stage : DisplayStage
  created_at : Option Nat
deriving DecidableEq, Repr

structure ChatSession where
  id : Nat
  user_id : Nat
  created_at : Nat
  session_name : Option String
deriving DecidableEq, Repr

/-! ## Persistent store (Supabase tables, §6 of the interface) -/

structure DbSessionRow where
  id : Nat
  user_id : Nat
  created_at : Nat
  session_name : String
deriving DecidableEq, Repr

/-- A row of the `chat_messages` table.  The table has no error column:
the component keeps the corresponding write commented out. -/
structure DbMessageRow where
  id : Nat
  session_id : Nat
  user_id : Nat
  query_text : String
  response_data : Option AiResponse
  created_at : Nat
deriving DecidableEq, Repr

/-- The remote store, with a monotone counter supplying fresh ids and
timestamps. -/
structure Store where
  sessions : List DbSessionRow
  messages : List DbMessageRow
  nextId : Nat
deriving DecidableEq, Repr

/-! ## JavaScript-flavoured helpers -/

/-- JavaScript `a || b` on nullable values. -/
def jsOr {α : Type} : Option α → Option α → Option α
  | some a, _ => some a
  | none, b => b

/-- JavaScript `a || b` on strings (empty string is falsy). -/
def jsStrOr (a b : String) : String := if a = "" then b else a

/-- JavaScript `String.prototype.trim`, at character granularity. -/
def jsTrim (s : String) : String :=
  String.mk (((s.data.dropWhile Char.isWhitespace).reverse.dropWhile Char.isWhitespace).reverse)

/-- JavaScript `s.substring(0, n)`, at character granularity. -/
def jsTake (s : String) (n : Nat) : String := String.mk (s.data.take n)

/-! ## In-flight asynchronous work

Each network call in flight is recorded together with the values its
continuation closed over; a response event resolves one of them. -/

/-- Closure of the `handleSearch` link-fetch continuation: the submitted
query, the id of the saved initial record (if the insert succeeded), and
the value `currentPendingMessageId` had when the handler was created. -/
structure LinkReq where
  searchQuery : String
  savedId : Option MsgId
  pendingAtEntry : Option MsgId
deriving DecidableEq, Repr

/-- Closure of the `fetchAiAnalysis` continuation. -/
structure AiReq where
  query : String
  linksData : FetchedLinksResponse
  forMessageId : Option MsgId
deriving DecidableEq, Repr

/-- Error body of a failed HTTP call, as the `catch`-normalisation sees
it: a parsed body with a `detail` field, a parsed body without one, or an
unparsable body (whose fallback message quotes the status text). -/
inductive ErrorBody where
  | withDetail (d : String)
  | noDetail
  | malformed (statusText : String)
deriving DecidableEq, Repr

inductive LinkOutcome where
  | success (linksDataResp : FetchedLinksResponse)
  | failure (body : ErrorBody)
deriving DecidableEq, Repr

inductive AiOutcome where
  | success (analysisRespData : AiResponse)
  | failure (body : ErrorBody)
deriving DecidableEq, Repr

/-- Message of the `Error` thrown for a failed link fetch:
`errorData.detail || fallback`, where a json-parse failure supplies
`detail = "Link fetch failed: " + statusText`. -/
def linkErrorMessage : ErrorBody → String
  | ErrorBody.withDetail d => jsStrOr d "Link fetch network response was not ok"
  | ErrorBody.noDetail => "Link fetch network response was not ok"
  | ErrorBody.malformed st => jsStrOr ("Link fetch failed: " ++ st) "Link fetch network response was not ok"

/-- Message of the `Error` thrown for a failed AI-analysis fetch. -/
def aiErrorMessage : ErrorBody → String
  | ErrorBody.withDetail d => jsStrOr d "AI analysis network response was not ok"
  | ErrorBody.noDetail => "AI analysis network response was not ok"
  | ErrorBody.malformed st => jsStrOr ("AI analysis failed: " ++ st) "AI analysis network response was not ok"

/-! ## Component state -/

structure AppState where
  user : Option Nat
  isLoadingAuth : Bool
  chatHistory : List ChatMessage
  currentSessionId : Option Nat
  chatSessionsList : List ChatSession
  isLoadingSessions : Bool
  isLoadingMessages : Bool
  currentPendingMessageId : Option MsgId
  currentQuery : String
  fetchedLinksData : Option FetchedLinksResponse
  aiAnalysisData : Option AiResponse
  isLoading : Bool
  error : Option String
  currentDisplayStage : DisplayStage
  currentLinkIndex : Nat
  loadingMessage : String
  selectedAiModel : String
  store : Store
  linkReqs : List LinkReq
  aiReqs : List AiReq
  now : Nat
deriving DecidableEq, Repr

def SESSION_NAME_MAX_LENGTH : Nat := 35

def DEFAULT_NEW_CHAT_NAME : String := "New Chat"

/-! ## Session store adapter (`saveChatMessage`) -/

/-- Data passed to `saveChatMessage`.  The `error` field is accepted but
never written: the `error_text` column does not exist and the write is
commented out in the source. -/
structure SaveData where
  query : Option String
  response : Option AiResponse
  error : Option String
deriving DecidableEq, Repr

/-- `saveChatMessage(messageData, forMessageId)`: inserts a new message
row when `query_text` is present, otherwise updates `response_data` of
the row identified by `forMessageId || currentPendingMessageId`.  Returns
the new store and the selected row (`null` on any failure, guard miss, or
update without new data).  `dbOk` is the environment choice of whether
the Supabase call itself succeeds. -/
def saveChatMessage (s : AppState) (messageData : SaveData)
    (forMessageId : Option MsgId) (dbOk : Bool) : Store × Option DbMessageRow :=
  match s.user, s.currentSessionId with
  | some uid, some sid =>
    let messageIdToSaveAgainst := jsOr forMessageId s.currentPendingMessageId
    match messageIdToSaveAgainst, messageData.query with
    | some mid, none =>
      match messageData.response with
      | none => (s.store, none)
      | some r =>
        match mid with
        | MsgId.dbId n =>
          if dbOk then
            match s.store.messages.find? (fun m => m.id == n) with
            | some row =>
              let row' := { row with response_data := some r }
              ({ s.store with
                  messages := s.store.messages.map (fun m => if m.id == n then row' else m) },
               some row')
            | none => (s.store, none)
          else (s.store, none)
        | MsgId.localId _ => (s.store, none)
    | _, some q =>
      if dbOk then
        let row : DbMessageRow :=
          { id := s.store.nextId, session_id := sid, user_id := uid,
            query_text := q, response_data := messageData.response,
            created_at := s.store.nextId }
        ({ s.store with
            messages := s.store.messages ++ [row],
            nextId := s.store.nextId + 1 },
         some row)
      else (s.store, none)
    | none, none => (s.store, none)
  | _, _ => (s.store, none)

/-! ## Session manager -/

/-- Reconstruction of one loaded `chat_messages` row into a `ChatMessage`
(`handleSelectChat`): the stage is hard-coded to `final`, and
`fetchedLinks` and `error` are left unset. -/
def loadMessageRow (msg : DbMessageRow) : ChatMessage :=
  { id := MsgId.dbId msg.id
    session_id := some msg.session_id
    user_id := some msg.user_id
    query := msg.query_text
    response := msg.response_data
    fetchedLinks := none
    error := none
    stage := DisplayStage.final
    created_at := some msg.created_at }

/-- `handleSelectChat(sessionId)`: early return when unauthenticated or
when the session is already active; otherwise resets the transient state,
clears the pending marker, and loads the session message history
(ordered by `created_at` ascending, which insertion order realises). -/
def handleSelectChat (s : AppState) (sessionId : Nat) (readOk : Bool) : AppState :=
  if s.user = none ∨ s.currentSessionId = some sessionId then s
  else
    let s1 := { s with
      currentSessionId := some sessionId
      chatHistory := []
      aiAnalysisData := none
      fetchedLinksData := none
      currentDisplayStage := DisplayStage.idle
      error := none
      currentPendingMessageId := none
      isLoadingMessages := true }
    if readOk then
      let rows := s1.store.messages.filter (fun m => m.session_id == sessionId)
      let loadedMessages := rows.map loadMessageRow
      { s1 with chatHistory := loadedMessages, isLoadingMessages := false }
    else
      { s1 with error := some "Could not load messages for this chat.",
                isLoadingMessages := false }

/-- `handleNewChat`: resets all transient state and the pending marker,
then inserts a fresh session named `DEFAULT_NEW_CHAT_NAME` and makes it
active (prepending it to the session list). -/
def handleNewChat (s : AppState) (dbOk : Bool) : AppState :=
  match s.user with
  | none => s
  | some uid =>
    let s1 := { s with
      chatHistory := []
      aiAnalysisData := none
      fetchedLinksData := none
      currentDisplayStage := DisplayStage.idle
      error := none
      currentQuery := ""
      isLoading := false
      currentPendingMessageId := none
      currentSessionId := none }
    if dbOk then
      let row : DbSessionRow :=
        { id := s1.store.nextId, user_id := uid, created_at := s1.store.nextId,
          session_name := DEFAULT_NEW_CHAT_NAME }
      let sess : ChatSession :=
        { id := row.id, user_id := row.user_id, created_at := row.created_at,
          session_name := some row.session_name }
      { s1 with
          store := { s1.store with
                      sessions := s1.store.sessions ++ [row],
                      nextId := s1.store.nextId + 1 },
          currentSessionId := some row.id,
          chatSessionsList := sess :: s1.chatSessionsList }
    else
      { s1 with error := some "Could not start a new chat." }

/-- Sign-out handling of the auth listener: discard the user, both chat
lists, the active session id and the pending marker. -/
def handleSignOut (s : AppState) : AppState :=
  { s with
      user := none
      chatHistory := []
      chatSessionsList := []
      currentSessionId := none
      currentPendingMessageId := none }

/-! ## Query orchestrator -/

/-- Adds the AI-analysis request: the synchronous prefix of
`fetchAiAnalysis` (clear the analysis buffer, enter `fetchingAiAnalysis`,
set the loading message, clear the error) plus the issued call with the
values its continuation closes over. -/
def fetchAiAnalysisStart (s : AppState) (query : String)
    (linksData : FetchedLinksResponse) (forMessageId : Option MsgId) : AppState :=
  { s with
      aiAnalysisData := none
      currentDisplayStage := DisplayStage.fetchingAiAnalysis
      loadingMessage := "Preparing AI analysis..."
      error := none
      aiReqs := s.aiReqs ++ [{ query := query, linksData := linksData, forMessageId := forMessageId }] }

/-- Continuation of `fetchAiAnalysis` once the network call resolves.  On
success: store the response, enter `subquestions`, persist `response_data`
on the owning row, and record the response on the matching history item.
On failure: normalise the message, enter `error`, attempt the (no-op)
error save, mark the matching history item, and clear the pending
marker. -/
def fetchAiAnalysisCont (s : AppState) (r : AiReq) (out : AiOutcome) (saveOk : Bool) : AppState :=
  match out with
  | AiOutcome.success analysisRespData =>
    let s1 := { s with
      aiAnalysisData := some analysisRespData
      currentDisplayStage := DisplayStage.subquestions }
    let saved := saveChatMessage s1
      { query := none, response := some analysisRespData, error := none } r.forMessageId saveOk
    { s1 with
        store := saved.1
        chatHistory := s1.chatHistory.map (fun ch =>
          if r.forMessageId == some ch.id then { ch with response := some analysisRespData } else ch) }
  | AiOutcome.failure body =>
    let errorMsg := jsStrOr (aiErrorMessage body) "An error occurred while fetching AI analysis."
    let saved := saveChatMessage s
      { query := none, response := none, error := some errorMsg } r.forMessageId saveOk
    { s with
        error := some errorMsg
        currentDisplayStage := DisplayStage.error
        store := saved.1
        chatHistory := s.chatHistory.map (fun ch =>
          if r.forMessageId == some ch.id then
            { ch with error := some errorMsg, stage := DisplayStage.error } else ch)
        currentPendingMessageId := none }

/-- The session name derived from a query: truncated to
`SESSION_NAME_MAX_LENGTH - 3` characters plus an ellipsis when the query
exceeds `SESSION_NAME_MAX_LENGTH`, the query itself otherwise. -/
def sessionNameOf (searchQuery : String) : String :=
  if SESSION_NAME_MAX_LENGTH < searchQuery.length then
    jsTake searchQuery (SESSION_NAME_MAX_LENGTH - 3) ++ "..."
  else searchQuery

/-- Outcomes of the three Supabase calls a Submit may perform. -/
structure SearchDbOutcomes where
  newSessionOk : Bool
  renameOk : Bool
  saveOk : Bool
deriving DecidableEq, Repr

/-- Shared tail of `handleSearch` once an active session is resolved:
reset the transient query state, persist the initial pending message
(falling back to a local-only history item when the insert fails), and
issue the link-fetch call. -/
def handleSearchProceed (s : AppState) (uid activeSessionId : Nat)
    (searchQuery : String) (pendingAtEntry : Option MsgId) (saveOk : Bool) : AppState :=
  let s3 := { s with
    currentQuery := searchQuery
    isLoading := true
    error := none
    fetchedLinksData := none
    aiAnalysisData := none
    currentLinkIndex := 0
    currentDisplayStage := DisplayStage.fetchingLinks
    loadingMessage := "Fetching relevant links..." }
  let initialMessageData : SaveData := { query := some searchQuery, response := none, error := none }
  let saved := saveChatMessage s3 initialMessageData none saveOk
  match saved.2 with
  | some rec =>
    { s3 with
        store := saved.1
        currentPendingMessageId := some (MsgId.dbId rec.id)
        chatHistory := s3.chatHistory ++
          [{ id := MsgId.dbId rec.id, session_id := some activeSessionId, user_id := some uid,
             query := searchQuery, response := none, fetchedLinks := none, error := none,
             stage := DisplayStage.fetchingLinks, created_at := some rec.created_at }]
        linkReqs := s3.linkReqs ++
          [{ searchQuery := searchQuery, savedId := some (MsgId.dbId rec.id),
             pendingAtEntry := pendingAtEntry }] }
  | none =>
    { s3 with
        store := saved.1
        chatHistory := s3.chatHistory ++
          [{ id := MsgId.localId s3.now, session_id := some activeSessionId, user_id := some uid,
             query := searchQuery, response := none, fetchedLinks := none, error := none,
             stage := DisplayStage.fetchingLinks, created_at := none }]
        now := s3.now + 1
        linkReqs := s3.linkReqs ++
          [{ searchQuery := searchQuery, savedId := none, pendingAtEntry := pendingAtEntry }] }

/-- `handleSearch` up to issuing the link-fetch call: input validation,
implicit session creation, rename of a default-named empty session, the
transient-state reset, and the initial pending-message insert.
`searchQuery` is the already-trimmed query the form passes. -/
def handleSearchStart (s : AppState) (searchQuery : String) (db : SearchDbOutcomes) : AppState :=
  match s.user with
  | none => { s with error := some "User not authenticated. Please login." }
  | some uid =>
    if jsTrim searchQuery = "" then
      { s with error := some "Search query cannot be empty." }
    else
      let newSessionName := sessionNameOf searchQuery
      let pendingAtEntry := s.currentPendingMessageId
      match s.currentSessionId with
      | none =>
        if db.newSessionOk then
          let row : DbSessionRow :=
            { id := s.store.nextId, user_id := uid, created_at := s.store.nextId,
              session_name := newSessionName }
          let sess : ChatSession :=
            { id := row.id, user_id := row.user_id, created_at := row.created_at,
              session_name := some row.session_name }
          let s2 := { s with
            isLoading := false,
            store := { s.store with
                        sessions := s.store.sessions ++ [row],
                        nextId := s.store.nextId + 1 },
            currentSessionId := some row.id,
            chatSessionsList := sess :: s.chatSessionsList,
            chatHistory := [] }
          handleSearchProceed s2 uid row.id searchQuery pendingAtEntry db.saveOk
        else
          { s with isLoading := false, error := some "Could not start a new chat session." }
      | some activeSessionId =>
        let s2 :=
          match s.chatSessionsList.find? (fun c => c.id == activeSessionId) with
          | some currentSessionObject =>
            if currentSessionObject.session_name == some DEFAULT_NEW_CHAT_NAME
               && s.chatHistory.length == 0 then
              if db.renameOk then
                match s.store.sessions.find? (fun r => r.id == activeSessionId) with
                | some row =>
                  let updatedRow := { row with session_name := newSessionName }
                  { s with
                      store := { s.store with
                                  sessions := s.store.sessions.map (fun r =>
                                    if r.id == activeSessionId then updatedRow else r) },
                      chatSessionsList := s.chatSessionsList.map (fun c =>
                        if c.id == activeSessionId then
                          { id := updatedRow.id, user_id := updatedRow.user_id,
                            created_at := updatedRow.created_at,
                            session_name := some updatedRow.session_name }
                        else c) }
                | none => s
              else s
            else s
          | none => s
        handleSearchProceed s2 uid activeSessionId searchQuery pendingAtEntry db.saveOk

/-- Continuation of `handleSearch` once the link-fetch call resolves (the
`try`/`catch`/`finally` after the `await`). -/
def handleSearchCont (s : AppState) (r : LinkReq) (out : LinkOutcome) (errSaveOk : Bool) : AppState :=
  let target := jsOr r.savedId r.pendingAtEntry
  match out with
  | LinkOutcome.success linksDataResp =>
    let s1 := { s with fetchedLinksData := some linksDataResp }
    let s2 := { s1 with chatHistory := s1.chatHistory.map (fun (ch : ChatMessage) =>
        if target == some ch.id then
          { ch with
              fetchedLinks := some linksDataResp,
              stage := if 0 < linksDataResp.results.length
                       then DisplayStage.gatheringLinks else DisplayStage.fetchingAiAnalysis }
        else ch) }
    if 0 < linksDataResp.results.length then
      { s2 with currentDisplayStage := DisplayStage.gatheringLinks, isLoading := false }
    else
      let emptyLinksData : FetchedLinksResponse :=
        { query := r.searchQuery, results := [], total_results := some 0 }
      let s3 := { s2 with
        loadingMessage := "No specific links found. Attempting general analysis..." }
      let s4 := fetchAiAnalysisStart s3 r.searchQuery emptyLinksData target
      { s4 with isLoading := false }
  | LinkOutcome.failure body =>
    let errorMsg := jsStrOr (linkErrorMessage body) "An unknown error occurred during search."
    let saved :=
      if target.isSome then
        saveChatMessage s { query := none, response := none, error := some errorMsg } target errSaveOk
      else (s.store, none)
    { s with
        error := some errorMsg
        currentDisplayStage := DisplayStage.error
        store := saved.1
        chatHistory := s.chatHistory.map (fun ch =>
          if target == some ch.id then
            { ch with error := some errorMsg, stage := DisplayStage.error } else ch)
        currentPendingMessageId := none
        isLoading := false }

/-! ## Stage-advancement effect and timers -/

/-- Early-return guard of the stage-advancement `useEffect`. -/
def effectGuardBlocks (s : AppState) : Bool :=
  s.currentPendingMessageId == none || s.isLoadingAuth
  || s.currentDisplayStage == DisplayStage.idle
  || s.currentDisplayStage == DisplayStage.error
  || s.currentDisplayStage == DisplayStage.fetchingLinks
  || s.currentDisplayStage == DisplayStage.fetchingAiAnalysis

/-- The immediate (non-timer) action of the effect body: in
`gatheringLinks`, once the reveal cursor has reached the last fetched
link — or the result list is empty — the AI-analysis call is issued
synchronously. -/
def effectImmediate (s : AppState) : AppState :=
  if effectGuardBlocks s then s
  else
    match s.currentDisplayStage with
    | DisplayStage.gatheringLinks =>
      match s.fetchedLinksData with
      | some d =>
        if 0 < d.results.length then
          if s.currentLinkIndex < d.results.length - 1 then s
          else if s.currentQuery ≠ "" then
            fetchAiAnalysisStart s s.currentQuery d s.currentPendingMessageId
          else s
        else if s.currentQuery ≠ "" then
          fetchAiAnalysisStart s s.currentQuery d s.currentPendingMessageId
        else s
      | none => s
    | _ => s

/-- Firing of the timeout the effect schedules: advance the reveal cursor
by one during `gatheringLinks`, or dwell-advance
`subquestions → analysis → synthesis → final`; the `final` transition also
marks the pending history item `final`, clears the pending marker and the
transient query/link/AI buffers. -/
def timerTick (s : AppState) : AppState :=
  if effectGuardBlocks s then s
  else
    match s.currentDisplayStage with
    | DisplayStage.gatheringLinks =>
      match s.fetchedLinksData with
      | some d =>
        if 0 < d.results.length then
          if s.currentLinkIndex < d.results.length - 1 then
            { s with currentLinkIndex := s.currentLinkIndex + 1 }
          else s
        else s
      | none => s
    | DisplayStage.subquestions =>
      if s.aiAnalysisData.isSome then { s with currentDisplayStage := DisplayStage.analysis } else s
    | DisplayStage.analysis =>
      if s.aiAnalysisData.isSome then { s with currentDisplayStage := DisplayStage.synthesis } else s
    | DisplayStage.synthesis =>
      if s.aiAnalysisData.isSome then
        { s with
            currentDisplayStage := DisplayStage.final
            chatHistory := s.chatHistory.map (fun (ch : ChatMessage) =>
              if s.currentPendingMessageId == some ch.id then
                { ch with stage := DisplayStage.final } else ch)
            currentPendingMessageId := none
            aiAnalysisData := none
            fetchedLinksData := none
            currentQuery := "" }
      else s
    | _ => s

/-! ## Events and the global step -/

/-- Enabled condition of the search form (its `isLoading` prop negated). -/
def searchFormEnabled (s : AppState) : Bool :=
  !(s.isLoading || s.isLoadingSessions || s.isLoadingMessages
    || s.currentDisplayStage == DisplayStage.fetchingLinks
    || s.currentDisplayStage == DisplayStage.fetchingAiAnalysis)

/-- Enabled condition of the New Chat button. -/
def newChatEnabled (s : AppState) : Bool :=
  !(s.isLoading || s.isLoadingSessions || s.isLoadingMessages)

/-- Enabled condition of the AI-model selector. -/
def modelSelectEnabled (s : AppState) : Bool :=
  !(s.isLoading || !(s.currentDisplayStage == DisplayStage.idle))

/-- External events: user interactions, network responses resolving an
in-flight request (chosen by index), and timer fires.  Database and
network outcomes ride on the event, chosen by the environment. -/
inductive Event where
  | submit (q : String) (db : SearchDbOutcomes)
  | linkResponse (i : Nat) (out : LinkOutcome) (errSaveOk : Bool)
  | aiResponse (i : Nat) (out : AiOutcome) (saveOk : Bool)
  | timerFire
  | selectChat (sessionId : Nat) (readOk : Bool)
  | newChat (dbOk : Bool)
  | selectModel (m : String)
  | signOut
deriving DecidableEq, Repr

/-- One event handled, before the effect re-runs.  User-interaction
events are gated on the corresponding control being enabled; the form
trims the query and only submits when the trimmed query is nonempty. -/
def rawStep (s : AppState) (e : Event) : AppState :=
  match e with
  | Event.submit q db =>
    if searchFormEnabled s && !(jsTrim q == "") then handleSearchStart s (jsTrim q) db else s
  | Event.linkResponse i out errSaveOk =>
    match s.linkReqs[i]? with
    | some r => handleSearchCont { s with linkReqs := s.linkReqs.eraseIdx i } r out errSaveOk
    | none => s
  | Event.aiResponse i out saveOk =>
    match s.aiReqs[i]? with
    | some r => fetchAiAnalysisCont { s with aiReqs := s.aiReqs.eraseIdx i } r out saveOk
    | none => s
  | Event.timerFire => timerTick s
  | Event.selectChat sessionId readOk => handleSelectChat s sessionId readOk
  | Event.newChat dbOk => if newChatEnabled s then handleNewChat s dbOk else s
  | Event.selectModel m => if modelSelectEnabled s then { s with selectedAiModel := m } else s
  | Event.signOut => handleSignOut s

/-- Whether any dependency of the stage-advancement effect differs
between two states (the effect re-runs exactly when one does). -/
def effectDepsChanged (s t : AppState) : Bool :=
  !(s.currentDisplayStage == t.currentDisplayStage)
  || !(s.fetchedLinksData == t.fetchedLinksData)
  || !(s.aiAnalysisData == t.aiAnalysisData)
  || !(s.currentLinkIndex == t.currentLinkIndex)
  || !(s.currentQuery == t.currentQuery)
  || !(s.isLoadingAuth == t.isLoadingAuth)
  || !(s.currentPendingMessageId == t.currentPendingMessageId)

/-- One full step: handle the event, then run the effect again if its
dependencies changed. -/
def step (s : AppState) (e : Event) : AppState :=
  let t := rawStep s e
  if effectDepsChanged s t then effectImmediate t else t

/-- A whole execution: fold the step over an event list. -/
def runEvents (s : AppState) (evs : List Event) : AppState :=
  evs.foldl step s

/-! ## Render observations -/

/-- Stages for which the pending history item renders a
`ThinkingProcessDisplay`. -/
def stageShowsThinking : DisplayStage → Bool
  | DisplayStage.fetchingLinks => true
  | DisplayStage.fetchingAiAnalysis => true
  | DisplayStage.gatheringLinks => true
  | DisplayStage.subquestions => true
  | DisplayStage.analysis => true
  | DisplayStage.synthesis => true
  | _ => false

/-- The AI response currently shown inside a thinking bubble: the render
passes the global `aiAnalysisData` to the `ThinkingProcessDisplay` of the
history item whose id equals the pending marker, and that component
displays it during `subquestions`, `analysis` and `synthesis`. -/
def displayedThinkingAi (s : AppState) : Option AiResponse :=
  if s.chatHistory.any (fun ch => some ch.id == s.currentPendingMessageId)
     && (s.currentDisplayStage == DisplayStage.subquestions
         || s.currentDisplayStage == DisplayStage.analysis
         || s.currentDisplayStage == DisplayStage.synthesis) then
    s.aiAnalysisData
  else none

/-- The error messages currently rendered under history items
(`chatItem.error` shown when the item is in the `error` stage). -/
def displayedErrorMessages (s : AppState) : List String :=
  (s.chatHistory.filter (fun ch => ch.error.isSome && ch.stage == DisplayStage.error)).filterMap
    (fun ch => ch.error)

/-- Number of history items of session `sid` still in a non-terminal
stage. -/
def nonTerminalCount (s : AppState) (sid : Nat) : Nat :=
  (s.chatHistory.filter (fun ch => ch.session_id == some sid && !ch.stage.isTerminal)).length

/-! ## Initial state and reachability -/

/-- State right after a fresh user signs in: authenticated, empty store,
nothing selected, `gemini` as the default model. -/
def mkInit (uid : Nat) : AppState :=
  { user := some uid
    isLoadingAuth := false
    chatHistory := []
    currentSessionId := none
    chatSessionsList := []
    isLoadingSessions := false
    isLoadingMessages := false
    currentPendingMessageId := none
    currentQuery := ""
    fetchedLinksData := none
    aiAnalysisData := none
    isLoading := false
    error := none
    currentDisplayStage := DisplayStage.idle
    currentLinkIndex := 0
    loadingMessage := ""
    selectedAiModel := "gemini"
    store := { sessions := [], messages := [], nextId := 0 }
    linkReqs := []
    aiReqs := []
    now := 0 }

/-- States reachable from the fresh-user initial state. -/
inductive Reachable (uid : Nat) : AppState → Prop where
  | init : Reachable uid (mkInit uid)
  | next (s : AppState) (e : Event) : Reachable uid s → Reachable uid (step s e)

/-! ## Concrete executions used by witnesses and counterexamples -/

def idemState : AppState := runEvents (mkInit 7) [Event.newChat true]

def preLinkState : AppState :=
  runEvents (mkInit 7) [Event.newChat true, Event.submit "q0" ⟨true, true, true⟩]

def pendOnlyState : AppState :=
  runEvents (mkInit 7)
    [Event.newChat true, Event.submit "q" ⟨true, true, true⟩,
     Event.linkResponse 0 (LinkOutcome.success ⟨"q", [⟨"t", "u", none⟩], some 1⟩) true,
     Event.newChat true]

def respA : AiResponse :=
  { sub_questions := ["sq0"], analysis := [], synthesis := [], final_answer := ["a0"], sources := [] }

def completedState : AppState :=
  runEvents (mkInit 7)
    [Event.newChat true, Event.submit "q0" ⟨true, true, true⟩,
     Event.linkResponse 0 (LinkOutcome.success ⟨"q0", [], some 0⟩) true,
     Event.aiResponse 0 (AiOutcome.success respA) true,
     Event.timerFire, Event.timerFire, Event.timerFire,
     Event.newChat true]

/-- Iterated reveal: the state upon entering `gatheringLinks`, after the
effect has run and `k` reveal timers have since fired. -/
def gatherIter (s : AppState) (k : Nat) : AppState :=
  (fun t => step t Event.timerFire)^[k] (effectImmediate s)

/-- Canonical shape of the state while `gatheringLinks` reveals link
`k`: pending marker set, auth resolved, link data present. -/
def gatherAt (s : AppState) (m : MsgId) (d : FetchedLinksResponse) (k : Nat) : AppState :=
  { s with
      currentDisplayStage := DisplayStage.gatheringLinks
      currentPendingMessageId := some m
      isLoadingAuth := false
      fetchedLinksData := some d
      currentLinkIndex := k }

def threeLinks : FetchedLinksResponse :=
  { query := "q", results := [⟨"t1", "u1", none⟩, ⟨"t2", "u2", none⟩, ⟨"t3", "u3", none⟩],
    total_results := some 3 }

def gatherState : AppState :=
  runEvents (mkInit 7)
    [Event.newChat true, Event.submit "q" ⟨true, true, true⟩,
     Event.linkResponse 0 (LinkOutcome.success threeLinks) true]

/-- Execution reaching two concurrently non-terminal messages: a second
query submitted while the first is still mid-reveal. -/
def twoPendingState : AppState :=
  runEvents (mkInit 7)
    [Event.newChat true, Event.submit "hello" ⟨true, true, true⟩,
     Event.linkResponse 0 (LinkOutcome.success ⟨"hello", [⟨"t1", "u1", none⟩, ⟨"t2", "u2", none⟩], some 2⟩) true,
     Event.submit "second" ⟨true, true, true⟩]

def respB : AiResponse :=
  { sub_questions := ["what is q1"], analysis := [⟨"q", "a"⟩], synthesis := ["syn"],
    final_answer := ["final ans"], sources := ["src"] }

/-- Execution in which query `q1` of session 1 is mid-AI-fetch when the
user switches to session 0: one completed exchange in session 0, then a
fresh session 1 with `q1` in flight, then the switch back to session 0. -/
def staleMidState : AppState :=
  runEvents (mkInit 7)
    [Event.newChat true, Event.submit "q0" ⟨true, true, true⟩,
     Event.linkResponse 0 (LinkOutcome.success ⟨"q0", [], some 0⟩) true,
     Event.aiResponse 0 (AiOutcome.success respA) true,
     Event.timerFire, Event.timerFire, Event.timerFire,
     Event.newChat true, Event.submit "q1" ⟨true, true, true⟩,
     Event.linkResponse 0 (LinkOutcome.success ⟨"q1", [⟨"t", "u", none⟩], some 1⟩) true,
     Event.selectChat 0 true]

/-- Continuation of `staleMidState`: a new query `q2` is submitted in
session 0, then the stale AI response of `q1` arrives. -/
def staleRespState : AppState :=
  runEvents staleMidState
    [Event.submit "q2" ⟨true, true, true⟩,
     Event.aiResponse 0 (AiOutcome.success respB) true]

/-- Execution in which the link fetch of a submitted query fails with an
error body carrying `detail = "upstream timeout"`. -/
def linkFailState : AppState :=
  runEvents preLinkState
    [Event.linkResponse 0 (LinkOutcome.failure (ErrorBody.withDetail "upstream timeout")) true]

/-- Execution in which the insert of the initial pending message fails. -/
def localFallbackState : AppState :=
  runEvents (mkInit 7) [Event.newChat true, Event.submit "q" ⟨true, true, false⟩]

/-- Whether any store row of message `mid` carries `msg` in any of its
text-bearing fields: how "the failure message is persisted on the
ChatMessage in the store" reads against the row schema, which has no
error column. -/
def storePersistsFailure (st : Store) (mid : Nat) (msg : String) : Bool :=
  st.messages.any (fun row => row.id == mid &&
    (row.query_text == msg ||
      (match row.response_data with
       | some a => a.sub_questions.contains msg || a.synthesis.contains msg
           || a.final_answer.contains msg || a.sources.contains msg
           || a.analysis.any (fun it => it.question == msg || it.analysis_content == msg)
       | none => false)))

/-- The pending-marker invariant: whenever the marker is set, it points
at a message of the active session present in the history whose recorded
stage is non-terminal — and no history item carrying the marked id is in
a terminal stage. -/
def PendingInv (s : AppState) : Prop :=
  ∀ m, s.currentPendingMessageId = some m →
    (∃ sid, s.currentSessionId = some sid
      ∧ ∃ ch ∈ s.chatHistory, ch.id = m ∧ ch.stage.isTerminal = false ∧ ch.session_id = some sid)
    ∧ ∀ ch ∈ s.chatHistory, ch.id = m → ch.stage.isTerminal = false

/-- Id freshness: every store message row and every database-backed
history item has an id below the store counter. -/
def IdsFresh (s : AppState) : Prop :=
  (∀ row ∈ s.store.messages, row.id < s.store.nextId)
  ∧ (∀ ch ∈ s.chatHistory, ∀ n, ch.id = MsgId.dbId n → n < s.store.nextId)

/-- The inductive invariant combining id freshness with the
pending-marker invariant. -/
def Inv (s : AppState) : Prop := IdsFresh s ∧ PendingInv s

/-! ## General lemmas about the step machinery -/

theorem effectDepsChanged_self (s : AppState) : effectDepsChanged s s = false := by
  simp [effectDepsChanged]

theorem step_eq_zeta (s : AppState) (e : Event) :
    step s e = if effectDepsChanged s (rawStep s e) = true
               then effectImmediate (rawStep s e) else rawStep s e := rfl

theorem step_of_rawStep_self (s : AppState) (e : Event) (h : rawStep s e = s) : step s e = s := by
  rw [step_eq_zeta, h, effectDepsChanged_self]
  simp

theorem reachable_runEvents (uid : Nat) (s : AppState) (evs : List Event)
    (h : Reachable uid s) : Reachable uid (runEvents s evs) := by
  induction evs generalizing s with
  | nil => exact h
  | cons e evs ih => exact ih _ (Reachable.next s e h)

theorem effectImmediate_of_blocked (s : AppState) (h : effectGuardBlocks s = true) :
    effectImmediate s = s := by
  simp [effectImmediate, h]

theorem effectGuardBlocks_of_pending_none (s : AppState)
    (h : s.currentPendingMessageId = none) : effectGuardBlocks s = true := by
  simp [effectGuardBlocks, h]

theorem map_eq_self_of_eq {α : Type} (l : List α) (f : α → α) (h : ∀ a ∈ l, f a = a) :
    l.map f = l := by
  induction l with
  | nil => rfl
  | cons a l ih =>
    simp only [List.map_cons, List.cons.injEq]
    exact ⟨h a (List.mem_cons_self a l), ih fun b hb => h b (List.mem_cons_of_mem a hb)⟩

/-- C8.  Selecting the already-active session is a complete no-op: the
early-return guard of `handleSelectChat` fires, no load happens and the
state is unchanged. -/
theorem selectSession_idempotent (s : AppState) (sid : Nat) (readOk : Bool)
    (h : s.currentSessionId = some sid) :
    step s (Event.selectChat sid readOk) = s := by
  apply step_of_rawStep_self
  simp [rawStep, handleSelectChat, h]


/-- Witness for C8 at a concrete reachable state. -/
theorem selectSession_idempotent_witness :
    step idemState (Event.selectChat 0 true) = idemState :=
  selectSession_idempotent idemState 0 true (by decide)

/-- C3.  A link-fetch response with zero results makes the orchestrator
enter `fetchingAiAnalysis` in the same step — `gatheringLinks` is never
entered — and issues the AI-analysis call with the empty link set. -/
theorem emptyResults_skipToAiAnalysis (s : AppState) (i : Nat) (r : LinkReq)
    (resp : FetchedLinksResponse) (b : Bool)
    (hreq : s.linkReqs[i]? = some r) (hempty : resp.results = [])
    (hstage : s.currentDisplayStage = DisplayStage.fetchingLinks) :
    (step s (Event.linkResponse i (LinkOutcome.success resp) b)).currentDisplayStage
        = DisplayStage.fetchingAiAnalysis
    ∧ (step s (Event.linkResponse i (LinkOutcome.success resp) b)).aiReqs
        = s.aiReqs ++ [{ query := r.searchQuery,
                         linksData := { query := r.searchQuery, results := [], total_results := some 0 },
                         forMessageId := jsOr r.savedId r.pendingAtEntry }] := by
  have hraw : rawStep s (Event.linkResponse i (LinkOutcome.success resp) b)
      = handleSearchCont { s with linkReqs := s.linkReqs.eraseIdx i } r
          (LinkOutcome.success resp) b := by
    simp [rawStep, hreq]
  have hstage2 : (handleSearchCont { s with linkReqs := s.linkReqs.eraseIdx i } r
      (LinkOutcome.success resp) b).currentDisplayStage = DisplayStage.fetchingAiAnalysis := by
    unfold handleSearchCont
    simp [hempty, fetchAiAnalysisStart]
  have haiReqs : (handleSearchCont { s with linkReqs := s.linkReqs.eraseIdx i } r
      (LinkOutcome.success resp) b).aiReqs
      = s.aiReqs ++ [{ query := r.searchQuery,
                       linksData := { query := r.searchQuery, results := [], total_results := some 0 },
                       forMessageId := jsOr r.savedId r.pendingAtEntry }] := by
    unfold handleSearchCont
    simp [hempty, fetchAiAnalysisStart]
  have hstep : step s (Event.linkResponse i (LinkOutcome.success resp) b)
      = handleSearchCont { s with linkReqs := s.linkReqs.eraseIdx i } r
          (LinkOutcome.success resp) b := by
    rw [step_eq_zeta, hraw]
    split
    · exact effectImmediate_of_blocked _ (by simp [effectGuardBlocks, hstage2])
    · rfl
  rw [hstep]
  exact ⟨hstage2, haiReqs⟩


/-- Witness for C3: a concrete submitted query whose link fetch returns
zero results. -/
theorem emptyResults_skipToAiAnalysis_witness :
    (step preLinkState
        (Event.linkResponse 0 (LinkOutcome.success ⟨"q0", [], some 0⟩) true)).currentDisplayStage
      = DisplayStage.fetchingAiAnalysis
    ∧ (step preLinkState
        (Event.linkResponse 0 (LinkOutcome.success ⟨"q0", [], some 0⟩) true)).aiReqs
      = preLinkState.aiReqs ++
        [(⟨"q0", ⟨"q0", [], some 0⟩, jsOr (some (MsgId.dbId 1)) none⟩ : AiReq)] :=
  emptyResults_skipToAiAnalysis preLinkState 0
    { searchQuery := "q0", savedId := some (MsgId.dbId 1), pendingAtEntry := none }
    ⟨"q0", [], some 0⟩ true (by decide) rfl (by decide)

/-- C10.  Every message `handleSelectChat` loads is reconstructed with
stage `final` and with `fetchedLinks` and `error` unset, whatever the
stored row actually contains. -/
theorem selectSession_reconstructsFinal (s : AppState) (sid : Nat)
    (hu : ¬ s.user = none) (hne : ¬ s.currentSessionId = some sid) :
    (∀ ch ∈ (step s (Event.selectChat sid true)).chatHistory,
      ch.stage = DisplayStage.final ∧ ch.fetchedLinks = none ∧ ch.error = none) := by
  have hist : (handleSelectChat s sid true).chatHistory
      = (s.store.messages.filter (fun m => m.session_id == sid)).map loadMessageRow := by
    unfold handleSelectChat
    simp [hu, hne]
  have hpend : (handleSelectChat s sid true).currentPendingMessageId = none := by
    unfold handleSelectChat
    simp [hu, hne]
  have hstep : step s (Event.selectChat sid true) = handleSelectChat s sid true := by
    rw [step_eq_zeta]
    show (if effectDepsChanged s (handleSelectChat s sid true) = true
          then effectImmediate (handleSelectChat s sid true)
          else handleSelectChat s sid true) = handleSelectChat s sid true
    split
    · exact effectImmediate_of_blocked _ (effectGuardBlocks_of_pending_none _ hpend)
    · rfl
  intro ch hch
  rw [hstep, hist] at hch
  obtain ⟨row, _, rfl⟩ := List.mem_map.1 hch
  exact ⟨rfl, rfl, rfl⟩


/-- Witness for C10: reloading a session whose only row is pending-only
(`query_text` saved, `response_data` null) still reconstructs `final`. -/
theorem selectSession_reconstructsFinal_witness :
    (∀ ch ∈ (step pendOnlyState (Event.selectChat 0 true)).chatHistory,
      ch.stage = DisplayStage.final ∧ ch.fetchedLinks = none ∧ ch.error = none)
    ∧ (step pendOnlyState (Event.selectChat 0 true)).chatHistory ≠ [] :=
  ⟨selectSession_reconstructsFinal pendOnlyState 0 (by decide) (by decide), by decide⟩

/-- C9.  A message row persisted with a `response_data` blob is
reconstructed by `handleSelectChat` as a `ChatMessage` with stage `final`
and the persisted response as its `response`. -/
theorem selectSession_roundTrip (s : AppState) (sid : Nat) (row : DbMessageRow)
    (resp : AiResponse)
    (hu : ¬ s.user = none) (hne : ¬ s.currentSessionId = some sid)
    (hrow : row ∈ s.store.messages) (hsid : row.session_id = sid)
    (hresp : row.response_data = some resp) :
    ∃ ch ∈ (step s (Event.selectChat sid true)).chatHistory,
      ch.id = MsgId.dbId row.id ∧ ch.stage = DisplayStage.final
      ∧ ch.response = some resp ∧ ch.query = row.query_text := by
  have hist : (handleSelectChat s sid true).chatHistory
      = (s.store.messages.filter (fun m => m.session_id == sid)).map loadMessageRow := by
    unfold handleSelectChat
    simp [hu, hne]
  have hpend : (handleSelectChat s sid true).currentPendingMessageId = none := by
    unfold handleSelectChat
    simp [hu, hne]
  have hstep : step s (Event.selectChat sid true) = handleSelectChat s sid true := by
    rw [step_eq_zeta]
    show (if effectDepsChanged s (handleSelectChat s sid true) = true
          then effectImmediate (handleSelectChat s sid true)
          else handleSelectChat s sid true) = handleSelectChat s sid true
    split
    · exact effectImmediate_of_blocked _ (effectGuardBlocks_of_pending_none _ hpend)
    · rfl
  refine ⟨loadMessageRow row, ?_, rfl, rfl, by simp [loadMessageRow, hresp], rfl⟩
  rw [hstep, hist]
  exact List.mem_map_of_mem _ (List.mem_filter.2 ⟨hrow, by simp [hsid]⟩)



/-- Witness for C9: a completed exchange persisted in session 0 is
reconstructed with stage `final` and the persisted response. -/
theorem selectSession_roundTrip_witness :
    ∃ ch ∈ (step completedState (Event.selectChat 0 true)).chatHistory,
      ch.id = MsgId.dbId 1 ∧ ch.stage = DisplayStage.final
      ∧ ch.response = some respA ∧ ch.query = "q0" :=
  selectSession_roundTrip completedState 0
    { id := 1, session_id := 0, user_id := 7, query_text := "q0",
      response_data := some respA, created_at := 1 }
    respA (by decide) (by decide) (by decide) rfl rfl

/-! ## The gatheringLinks reveal loop -/

theorem gatherIter_zero (s : AppState) : gatherIter s 0 = effectImmediate s := rfl

theorem gatherIter_succ (s : AppState) (k : Nat) :
    gatherIter s (k + 1) = step (gatherIter s k) Event.timerFire :=
  Function.iterate_succ_apply' _ _ _

theorem rawStep_timerFire (s : AppState) : rawStep s Event.timerFire = timerTick s := rfl

theorem handleSearchProceed_resets (s : AppState) (uid sid : Nat) (q : String)
    (p : Option MsgId) (ok : Bool) :
    (handleSearchProceed s uid sid q p ok).currentLinkIndex = 0
    ∧ (handleSearchProceed s uid sid q p ok).linkReqs.length = s.linkReqs.length + 1 := by
  simp only [handleSearchProceed]
  split <;> simp

theorem gatherAt_guard (s : AppState) (m : MsgId) (d : FetchedLinksResponse) (k : Nat) :
    effectGuardBlocks (gatherAt s m d k) = false := rfl

theorem gatherAt_stage (s : AppState) (m : MsgId) (d : FetchedLinksResponse) (k : Nat) :
    (gatherAt s m d k).currentDisplayStage = DisplayStage.gatheringLinks := rfl

theorem gatherAt_fld (s : AppState) (m : MsgId) (d : FetchedLinksResponse) (k : Nat) :
    (gatherAt s m d k).fetchedLinksData = some d := rfl

theorem gatherAt_idx (s : AppState) (m : MsgId) (d : FetchedLinksResponse) (k : Nat) :
    (gatherAt s m d k).currentLinkIndex = k := rfl

theorem gatherAt_pend (s : AppState) (m : MsgId) (d : FetchedLinksResponse) (k : Nat) :
    (gatherAt s m d k).currentPendingMessageId = some m := rfl

theorem gatherAt_query (s : AppState) (m : MsgId) (d : FetchedLinksResponse) (k : Nat) :
    (gatherAt s m d k).currentQuery = s.currentQuery := rfl

theorem gatherAt_set_idx (s : AppState) (m : MsgId) (d : FetchedLinksResponse) (k j : Nat) :
    ({ gatherAt s m d k with currentLinkIndex := j } : AppState) = gatherAt s m d j := rfl

theorem gatherAt_eff_mid (s : AppState) (m : MsgId) (d : FetchedLinksResponse) (k : Nat)
    (hk : k < d.results.length - 1) (hpos : 0 < d.results.length) :
    effectImmediate (gatherAt s m d k) = gatherAt s m d k := by
  simp [effectImmediate, gatherAt_guard, gatherAt_stage, gatherAt_fld, gatherAt_idx, hk, hpos]

theorem gatherAt_eff_last (s : AppState) (m : MsgId) (d : FetchedLinksResponse)
    (hpos : 0 < d.results.length) (hq : ¬ s.currentQuery = "") :
    effectImmediate (gatherAt s m d (d.results.length - 1))
      = fetchAiAnalysisStart (gatherAt s m d (d.results.length - 1))
          s.currentQuery d (some m) := by
  simp [effectImmediate, gatherAt_guard, gatherAt_stage, gatherAt_fld, gatherAt_idx,
    gatherAt_pend, gatherAt_query, hpos, hq]

theorem gatherAt_tick (s : AppState) (m : MsgId) (d : FetchedLinksResponse) (k : Nat)
    (hk : k < d.results.length - 1) (hpos : 0 < d.results.length) :
    timerTick (gatherAt s m d k) = gatherAt s m d (k + 1) := by
  simp only [timerTick, gatherAt_guard, gatherAt_stage, gatherAt_fld, gatherAt_idx,
    Bool.false_eq_true, if_false, if_pos hpos, if_pos hk]
  exact gatherAt_set_idx s m d k (k + 1)

theorem gatherAt_deps (s : AppState) (m : MsgId) (d : FetchedLinksResponse) (k : Nat) :
    effectDepsChanged (gatherAt s m d k) (gatherAt s m d (k + 1)) = true := by
  simp [effectDepsChanged, gatherAt_stage, gatherAt_fld, gatherAt_idx, gatherAt_pend,
    gatherAt_query]

/-- C4.  With `N > 0` fetched results and the reveal cursor reset to 0,
the cursor walks `0, 1, …, N-1` one step per timer fire, never leaves
`[0, N)`, and after revealing index `N-1` the orchestrator enters
`fetchingAiAnalysis`, issuing the AI call with the full link set; and
every Submit that issues a link fetch resets the cursor to 0. -/
theorem gatheringLinks_revealSteps (s : AppState) (d : FetchedLinksResponse) (m : MsgId) (N : Nat)
    (hstage : s.currentDisplayStage = DisplayStage.gatheringLinks)
    (hpend : s.currentPendingMessageId = some m)
    (hauth : s.isLoadingAuth = false)
    (hdata : s.fetchedLinksData = some d)
    (hN : d.results.length = N) (hpos : 0 < N)
    (hidx : s.currentLinkIndex = 0)
    (hq : ¬ s.currentQuery = "") :
    (∀ k, k < N - 1 →
      (gatherIter s k).currentDisplayStage = DisplayStage.gatheringLinks
      ∧ (gatherIter s k).currentLinkIndex = k)
    ∧ (gatherIter s (N - 1)).currentDisplayStage = DisplayStage.fetchingAiAnalysis
    ∧ (gatherIter s (N - 1)).currentLinkIndex = N - 1
    ∧ (gatherIter s (N - 1)).aiReqs
        = s.aiReqs ++ [{ query := s.currentQuery, linksData := d, forMessageId := some m }]
    ∧ (∀ k, (gatherIter s k).currentLinkIndex < N)
    ∧ (∀ (s2 : AppState) (uid sid : Nat) (q2 : String) (p : Option MsgId) (ok : Bool),
        (handleSearchProceed s2 uid sid q2 p ok).currentLinkIndex = 0) := by
  subst hN
  have hA0 : gatherAt s m d 0 = s := by
    show { s with
        currentDisplayStage := DisplayStage.gatheringLinks
        currentPendingMessageId := some m
        isLoadingAuth := false
        fetchedLinksData := some d
        currentLinkIndex := 0 } = s
    rw [← hstage, ← hpend, ← hauth, ← hdata, ← hidx]
  have formula : ∀ k, k ≤ d.results.length - 1 → gatherIter s k =
      if k < d.results.length - 1 then gatherAt s m d k
      else fetchAiAnalysisStart (gatherAt s m d (d.results.length - 1))
        s.currentQuery d (some m) := by
    intro k
    induction k with
    | zero =>
      intro _
      rw [gatherIter_zero]
      by_cases h0 : 0 < d.results.length - 1
      · rw [if_pos h0]
        calc effectImmediate s
            = effectImmediate (gatherAt s m d 0) := by rw [hA0]
          _ = gatherAt s m d 0 := gatherAt_eff_mid s m d 0 h0 hpos
      · have hN1 : d.results.length - 1 = 0 := by omega
        rw [if_neg h0]
        calc effectImmediate s
            = effectImmediate (gatherAt s m d 0) := by rw [hA0]
          _ = fetchAiAnalysisStart (gatherAt s m d (d.results.length - 1))
              s.currentQuery d (some m) := by
              rw [hN1]
              exact hN1 ▸ gatherAt_eff_last s m d hpos hq
    | succ k ih =>
      intro hk1
      have hklt : k < d.results.length - 1 := by omega
      rw [gatherIter_succ, ih (by omega), if_pos hklt, step_eq_zeta, rawStep_timerFire,
        gatherAt_tick s m d k hklt hpos, gatherAt_deps, if_pos rfl]
      by_cases h2 : k + 1 < d.results.length - 1
      · rw [if_pos h2]
        exact gatherAt_eff_mid s m d (k + 1) h2 hpos
      · have hEq : k + 1 = d.results.length - 1 := by omega
        rw [if_neg h2, hEq]
        exact gatherAt_eff_last s m d hpos hq
  have hSfinBlocked : effectGuardBlocks
      (fetchAiAnalysisStart (gatherAt s m d (d.results.length - 1)) s.currentQuery d (some m))
        = true := rfl
  have stable : ∀ k, d.results.length - 1 ≤ k → gatherIter s k =
      fetchAiAnalysisStart (gatherAt s m d (d.results.length - 1)) s.currentQuery d (some m) := by
    intro k hk
    induction k with
    | zero =>
      have h := formula 0 (by omega)
      rwa [if_neg (by omega)] at h
    | succ k ih =>
      by_cases hk2 : d.results.length - 1 ≤ k
      · rw [gatherIter_succ, ih hk2]
        apply step_of_rawStep_self
        show timerTick _ = _
        simp [timerTick, hSfinBlocked]
      · have h := formula (k + 1) (by omega)
        rwa [if_neg (by omega)] at h
  refine ⟨?_, ?_, ?_, ?_, ?_, ?_⟩
  · intro k hk
    have h := formula k (le_of_lt hk)
    rw [if_pos hk] at h
    rw [h]
    exact ⟨rfl, rfl⟩
  · rw [stable (d.results.length - 1) le_rfl]
    rfl
  · rw [stable (d.results.length - 1) le_rfl]
    rfl
  · rw [stable (d.results.length - 1) le_rfl]
    rfl
  · intro k
    by_cases hk : k < d.results.length - 1
    · have h := formula k (le_of_lt hk)
      rw [if_pos hk] at h
      rw [h]
      show k < d.results.length
      omega
    · rw [stable k (by omega)]
      show d.results.length - 1 < d.results.length
      omega
  · intro s2 uid sid q2 p ok
    exact (handleSearchProceed_resets s2 uid sid q2 p ok).1

/-- Witness for C4 at a concrete three-result link fetch: after entering
`gatheringLinks` and two timer fires, the cursor sits at index 2 and the
AI call has been issued with all three links. -/
theorem gatheringLinks_revealSteps_witness :
    (gatherIter gatherState 2).currentDisplayStage = DisplayStage.fetchingAiAnalysis
    ∧ (gatherIter gatherState 2).currentLinkIndex = 2
    ∧ (gatherIter gatherState 2).aiReqs
        = gatherState.aiReqs
          ++ [{ query := gatherState.currentQuery, linksData := threeLinks,
                forMessageId := some (MsgId.dbId 1) }] := by
  have h := gatheringLinks_revealSteps gatherState threeLinks (MsgId.dbId 1) 3
    (by decide) (by decide) (by decide) (by decide) (by decide) (by decide) (by decide) (by decide)
  exact ⟨h.2.1, h.2.2.1, h.2.2.2.1⟩

/-! ## Failure handling -/

/-- An update-style save with no new `response_data` writes nothing: the
error text has no column, so the update payload stays empty and
`saveChatMessage` returns null with the store untouched. -/
theorem save_noop (s : AppState) (e : Option String) (f : Option MsgId) (ok : Bool) :
    saveChatMessage s { query := none, response := none, error := e } f ok = (s.store, none) := by
  simp only [saveChatMessage]
  cases s.user with
  | none => rfl
  | some uid =>
    cases s.currentSessionId with
    | none => rfl
    | some sid =>
      cases jsOr f s.currentPendingMessageId with
      | none => rfl
      | some mid => rfl

/-- C5 (amended).  A link-fetch or AI-analysis failure whose error body
carries a `detail` field moves the owning message to the terminal `error`
stage with exactly that detail as message, displays it, and clears the
pending marker — but persists nothing: the store is left untouched. -/
theorem upstreamFailure_behaviour (s : AppState) (i : Nat) (r : LinkReq) (d : String)
    (b : Bool) (n : Nat)
    (hreq : s.linkReqs[i]? = some r) (hd : ¬ d = "")
    (hsaved : r.savedId = some (MsgId.dbId n))
    (hmem : ∃ ch ∈ s.chatHistory, ch.id = MsgId.dbId n) :
    (step s (Event.linkResponse i (LinkOutcome.failure (ErrorBody.withDetail d)) b)).currentPendingMessageId = none
    ∧ (step s (Event.linkResponse i (LinkOutcome.failure (ErrorBody.withDetail d)) b)).error = some d
    ∧ (∃ ch ∈ (step s (Event.linkResponse i (LinkOutcome.failure (ErrorBody.withDetail d)) b)).chatHistory,
        ch.id = MsgId.dbId n ∧ ch.stage = DisplayStage.error ∧ ch.error = some d)
    ∧ d ∈ displayedErrorMessages (step s (Event.linkResponse i (LinkOutcome.failure (ErrorBody.withDetail d)) b))
    ∧ (step s (Event.linkResponse i (LinkOutcome.failure (ErrorBody.withDetail d)) b)).store = s.store
    ∧ (∀ (j : Nat) (r2 : AiReq) (ok2 : Bool),
        s.aiReqs[j]? = some r2 → r2.forMessageId = some (MsgId.dbId n) →
        (step s (Event.aiResponse j (AiOutcome.failure (ErrorBody.withDetail d)) ok2)).currentPendingMessageId = none
        ∧ (step s (Event.aiResponse j (AiOutcome.failure (ErrorBody.withDetail d)) ok2)).error = some d
        ∧ (∃ ch ∈ (step s (Event.aiResponse j (AiOutcome.failure (ErrorBody.withDetail d)) ok2)).chatHistory,
            ch.id = MsgId.dbId n ∧ ch.stage = DisplayStage.error ∧ ch.error = some d)
        ∧ d ∈ displayedErrorMessages (step s (Event.aiResponse j (AiOutcome.failure (ErrorBody.withDetail d)) ok2))
        ∧ (step s (Event.aiResponse j (AiOutcome.failure (ErrorBody.withDetail d)) ok2)).store = s.store) := by
  obtain ⟨ch0, hch0, hid⟩ := hmem
  have hfmap : ∀ (msgid : Option MsgId), msgid = some (MsgId.dbId n) →
      ∀ (l : List ChatMessage), ch0 ∈ l →
      (({ ch0 with error := some d, stage := DisplayStage.error } : ChatMessage)
        ∈ l.map (fun ch => if msgid == some ch.id then
            { ch with error := some d, stage := DisplayStage.error } else ch)) := by
    intro msgid hmsg l hl
    have hfc : (fun ch => if msgid == some ch.id then
        { ch with error := some d, stage := DisplayStage.error } else ch) ch0
        = { ch0 with error := some d, stage := DisplayStage.error } := by
      simp [hmsg, hid]
    rw [← hfc]
    exact List.mem_map_of_mem _ hl
  have hshow : ∀ (l : List ChatMessage),
      ({ ch0 with error := some d, stage := DisplayStage.error } : ChatMessage) ∈ l →
      (∃ ch ∈ l, ch.id = MsgId.dbId n ∧ ch.stage = DisplayStage.error ∧ ch.error = some d)
      ∧ d ∈ (l.filter (fun ch => ch.error.isSome && ch.stage == DisplayStage.error)).filterMap
          (fun ch => ch.error) := by
    intro l hl
    refine ⟨⟨_, hl, hid, rfl, rfl⟩, ?_⟩
    apply List.mem_filterMap.2
    refine ⟨{ ch0 with error := some d, stage := DisplayStage.error }, ?_, rfl⟩
    exact List.mem_filter.2 ⟨hl, by simp⟩
  have hlink :
      (step s (Event.linkResponse i (LinkOutcome.failure (ErrorBody.withDetail d)) b)).currentPendingMessageId = none
      ∧ (step s (Event.linkResponse i (LinkOutcome.failure (ErrorBody.withDetail d)) b)).error = some d
      ∧ (∃ ch ∈ (step s (Event.linkResponse i (LinkOutcome.failure (ErrorBody.withDetail d)) b)).chatHistory,
          ch.id = MsgId.dbId n ∧ ch.stage = DisplayStage.error ∧ ch.error = some d)
      ∧ d ∈ displayedErrorMessages (step s (Event.linkResponse i (LinkOutcome.failure (ErrorBody.withDetail d)) b))
      ∧ (step s (Event.linkResponse i (LinkOutcome.failure (ErrorBody.withDetail d)) b)).store = s.store := by
    have herrMsg : jsStrOr (linkErrorMessage (ErrorBody.withDetail d))
        "An unknown error occurred during search." = d := by
      simp [linkErrorMessage, jsStrOr, hd]
    have htarget : jsOr r.savedId r.pendingAtEntry = some (MsgId.dbId n) := by
      rw [hsaved]; rfl
    have hcont : handleSearchCont { s with linkReqs := s.linkReqs.eraseIdx i } r
        (LinkOutcome.failure (ErrorBody.withDetail d)) b
        = { s with
            linkReqs := s.linkReqs.eraseIdx i
            error := some d
            currentDisplayStage := DisplayStage.error
            chatHistory := s.chatHistory.map (fun ch =>
              if (some (MsgId.dbId n) : Option MsgId) == some ch.id then
                { ch with error := some d, stage := DisplayStage.error } else ch)
            currentPendingMessageId := none
            isLoading := false } := by
      simp only [handleSearchCont, htarget, herrMsg, Option.isSome_some, if_true, save_noop]
    have hraw : rawStep s (Event.linkResponse i (LinkOutcome.failure (ErrorBody.withDetail d)) b)
        = handleSearchCont { s with linkReqs := s.linkReqs.eraseIdx i } r
            (LinkOutcome.failure (ErrorBody.withDetail d)) b := by
      simp [rawStep, hreq]
    have hstep : step s (Event.linkResponse i (LinkOutcome.failure (ErrorBody.withDetail d)) b)
        = handleSearchCont { s with linkReqs := s.linkReqs.eraseIdx i } r
            (LinkOutcome.failure (ErrorBody.withDetail d)) b := by
      rw [step_eq_zeta, hraw]
      split
      · refine effectImmediate_of_blocked _ (effectGuardBlocks_of_pending_none _ ?_)
        rw [hcont]
      · rfl
    rw [hstep, hcont]
    have hs := hshow _ (hfmap (some (MsgId.dbId n)) rfl s.chatHistory hch0)
    exact ⟨rfl, rfl, hs.1, hs.2, rfl⟩
  have hai : ∀ (j : Nat) (r2 : AiReq) (ok2 : Bool),
      s.aiReqs[j]? = some r2 → r2.forMessageId = some (MsgId.dbId n) →
      (step s (Event.aiResponse j (AiOutcome.failure (ErrorBody.withDetail d)) ok2)).currentPendingMessageId = none
      ∧ (step s (Event.aiResponse j (AiOutcome.failure (ErrorBody.withDetail d)) ok2)).error = some d
      ∧ (∃ ch ∈ (step s (Event.aiResponse j (AiOutcome.failure (ErrorBody.withDetail d)) ok2)).chatHistory,
          ch.id = MsgId.dbId n ∧ ch.stage = DisplayStage.error ∧ ch.error = some d)
      ∧ d ∈ displayedErrorMessages (step s (Event.aiResponse j (AiOutcome.failure (ErrorBody.withDetail d)) ok2))
      ∧ (step s (Event.aiResponse j (AiOutcome.failure (ErrorBody.withDetail d)) ok2)).store = s.store := by
    intro j r2 ok2 hj hfor
    have herrMsg : jsStrOr (aiErrorMessage (ErrorBody.withDetail d))
        "An error occurred while fetching AI analysis." = d := by
      simp [aiErrorMessage, jsStrOr, hd]
    have hcont : fetchAiAnalysisCont { s with aiReqs := s.aiReqs.eraseIdx j } r2
        (AiOutcome.failure (ErrorBody.withDetail d)) ok2
        = { s with
            aiReqs := s.aiReqs.eraseIdx j
            error := some d
            currentDisplayStage := DisplayStage.error
            chatHistory := s.chatHistory.map (fun ch =>
              if r2.forMessageId == some ch.id then
                { ch with error := some d, stage := DisplayStage.error } else ch)
            currentPendingMessageId := none } := by
      simp only [fetchAiAnalysisCont, herrMsg, save_noop]
    have hraw : rawStep s (Event.aiResponse j (AiOutcome.failure (ErrorBody.withDetail d)) ok2)
        = fetchAiAnalysisCont { s with aiReqs := s.aiReqs.eraseIdx j } r2
            (AiOutcome.failure (ErrorBody.withDetail d)) ok2 := by
      simp [rawStep, hj]
    have hstep : step s (Event.aiResponse j (AiOutcome.failure (ErrorBody.withDetail d)) ok2)
        = fetchAiAnalysisCont { s with aiReqs := s.aiReqs.eraseIdx j } r2
            (AiOutcome.failure (ErrorBody.withDetail d)) ok2 := by
      rw [step_eq_zeta, hraw]
      split
      · refine effectImmediate_of_blocked _ (effectGuardBlocks_of_pending_none _ ?_)
        rw [hcont]
      · rfl
    rw [hstep, hcont]
    have hs := hshow _ (hfmap r2.forMessageId hfor s.chatHistory hch0)
    exact ⟨rfl, rfl, hs.1, hs.2, rfl⟩
  exact ⟨hlink.1, hlink.2.1, hlink.2.2.1, hlink.2.2.2.1, hlink.2.2.2.2, hai⟩

/-- Witness for C5: the concrete HTTP-500 scenario with body detail
`"upstream timeout"`. -/
theorem upstreamFailure_behaviour_witness :
    (step preLinkState
      (Event.linkResponse 0 (LinkOutcome.failure (ErrorBody.withDetail "upstream timeout")) true)).currentPendingMessageId = none
    ∧ (step preLinkState
      (Event.linkResponse 0 (LinkOutcome.failure (ErrorBody.withDetail "upstream timeout")) true)).error
        = some "upstream timeout"
    ∧ "upstream timeout" ∈ displayedErrorMessages (step preLinkState
        (Event.linkResponse 0 (LinkOutcome.failure (ErrorBody.withDetail "upstream timeout")) true))
    ∧ (step preLinkState
      (Event.linkResponse 0 (LinkOutcome.failure (ErrorBody.withDetail "upstream timeout")) true)).store
        = preLinkState.store := by
  have h := upstreamFailure_behaviour preLinkState 0
    { searchQuery := "q0", savedId := some (MsgId.dbId 1), pendingAtEntry := none }
    "upstream timeout" true 1 (by decide) (by decide) rfl
    ⟨{ id := MsgId.dbId 1, session_id := some 0, user_id := some 7, query := "q0",
       response := none, fetchedLinks := none, error := none,
       stage := DisplayStage.fetchingLinks, created_at := some 1 }, by decide, rfl⟩
  exact ⟨h.1, h.2.1, h.2.2.2.1, h.2.2.2.2.1⟩

/-- Counterexample to C5 as stated: in the HTTP-500 scenario the message
does reach `error` with the detail displayed and the marker cleared, but
nothing about the failure is persisted — the store after the failing step
equals the store before it, and no row of the owning message carries the
failure text (the messages table has no error column). -/
theorem failureMessage_notPersisted :
    (linkFailState.chatHistory.map (fun ch => (ch.stage, ch.error)))
        = [(DisplayStage.error, some "upstream timeout")]
    ∧ displayedErrorMessages linkFailState = ["upstream timeout"]
    ∧ linkFailState.currentPendingMessageId = none
    ∧ linkFailState.store = preLinkState.store
    ∧ storePersistsFailure linkFailState.store 1 "upstream timeout" = false := by
  refine ⟨by decide, by decide, by decide, by decide, by decide⟩

/-- A failed Supabase call leaves the store untouched and selects no
row, for any payload. -/
theorem save_false (s : AppState) (d : SaveData) (f : Option MsgId) :
    saveChatMessage s d f false = (s.store, none) := by
  simp only [saveChatMessage]
  cases s.user with
  | none => rfl
  | some uid =>
    cases s.currentSessionId with
    | none => rfl
    | some sid =>
      cases hm : jsOr f s.currentPendingMessageId with
      | none =>
        cases d.query with
        | none => rfl
        | some q => rfl
      | some mid =>
        cases d.query with
        | none =>
          cases d.response with
          | none => rfl
          | some resp => cases mid <;> rfl
        | some q => rfl

/-- `handleSearchProceed` when the initial insert fails: the transient
state is reset, a local-fallback history item is appended, the pending
marker is left alone, and the link fetch is still issued. -/
theorem handleSearchProceed_saveFail (s : AppState) (uid sid : Nat) (q : String)
    (p : Option MsgId) :
    handleSearchProceed s uid sid q p false
      = { s with
          currentQuery := q
          isLoading := true
          error := none
          fetchedLinksData := none
          aiAnalysisData := none
          currentLinkIndex := 0
          currentDisplayStage := DisplayStage.fetchingLinks
          loadingMessage := "Fetching relevant links..."
          chatHistory := s.chatHistory ++
            [{ id := MsgId.localId s.now, session_id := some sid, user_id := some uid,
               query := q, response := none, fetchedLinks := none, error := none,
               stage := DisplayStage.fetchingLinks, created_at := none }]
          now := s.now + 1
          linkReqs := s.linkReqs ++
            [{ searchQuery := q, savedId := none, pendingAtEntry := p }] } := by
  simp only [handleSearchProceed, save_false]

/-- Splitting `handleSearchStart` on an existing active session: whatever
the rename branch does, it only touches the session rows and the session
list, and the handler then proceeds with the same query context. -/
theorem handleSearchStart_explicit (s : AppState) (q : String) (db : SearchDbOutcomes)
    (uid sid : Nat) (hu : s.user = some uid) (hsid : s.currentSessionId = some sid)
    (hq2 : ¬ jsTrim q = "") :
    ∃ s2 : AppState,
      handleSearchStart s q db
        = handleSearchProceed s2 uid sid q s.currentPendingMessageId db.saveOk
      ∧ s2.user = s.user ∧ s2.currentSessionId = s.currentSessionId
      ∧ s2.chatHistory = s.chatHistory ∧ s2.linkReqs = s.linkReqs
      ∧ s2.currentPendingMessageId = s.currentPendingMessageId
      ∧ s2.now = s.now ∧ s2.aiReqs = s.aiReqs
      ∧ s2.store.messages = s.store.messages ∧ s2.store.nextId = s.store.nextId := by
  simp only [handleSearchStart, hu, hsid, if_neg hq2]
  refine ⟨_, rfl, ?_⟩
  split
  · split
    · split
      · split
        · exact ⟨by first | exact hu | rfl, by first | exact hsid | rfl, rfl, rfl, rfl, rfl, rfl, rfl, rfl⟩
        · exact ⟨by first | exact hu | rfl, by first | exact hsid | rfl, rfl, rfl, rfl, rfl, rfl, rfl, rfl⟩
      · exact ⟨by first | exact hu | rfl, by first | exact hsid | rfl, rfl, rfl, rfl, rfl, rfl, rfl, rfl⟩
    · exact ⟨by first | exact hu | rfl, by first | exact hsid | rfl, rfl, rfl, rfl, rfl, rfl, rfl, rfl⟩
  · exact ⟨by first | exact hu | rfl, by first | exact hsid | rfl, rfl, rfl, rfl, rfl, rfl, rfl, rfl⟩

/-- C6 (amended).  When the insert of the initial pending message fails,
the submission is not aborted: no user-visible error is raised, the
pending marker is left alone, a local-only fallback item is appended and
the link fetch is still issued.  Only the implicit session-creation
failure aborts with a user-visible error and no link fetch. -/
theorem initialSaveFailure_proceedsLocally (s : AppState) (q : String) (db : SearchDbOutcomes)
    (uid sid : Nat)
    (hu : s.user = some uid) (hsid : s.currentSessionId = some sid)
    (hen : searchFormEnabled s = true) (hqt : jsTrim q = q) (hq : ¬ q = "")
    (hsave : db.saveOk = false) :
    (step s (Event.submit q db)).error = none
    ∧ (step s (Event.submit q db)).currentPendingMessageId = s.currentPendingMessageId
    ∧ (step s (Event.submit q db)).linkReqs
        = s.linkReqs ++ [{ searchQuery := q, savedId := none,
                           pendingAtEntry := s.currentPendingMessageId }]
    ∧ (step s (Event.submit q db)).chatHistory
        = s.chatHistory ++
          [{ id := MsgId.localId s.now, session_id := some sid, user_id := some uid,
             query := q, response := none, fetchedLinks := none, error := none,
             stage := DisplayStage.fetchingLinks, created_at := none }]
    ∧ (∀ (s2 : AppState) (q2 : String) (db2 : SearchDbOutcomes),
        ¬ s2.user = none → s2.currentSessionId = none → jsTrim q2 = q2 → ¬ q2 = "" →
        db2.newSessionOk = false → searchFormEnabled s2 = true →
        (step s2 (Event.submit q2 db2)).error = some "Could not start a new chat session."
        ∧ (step s2 (Event.submit q2 db2)).linkReqs = s2.linkReqs) := by
  have hq2 : ¬ jsTrim q = "" := by rw [hqt]; exact hq
  obtain ⟨s2, heq, hfu, hfs, hfh, hfl, hfp, hfn, hfa, hfm, hfi⟩ :=
    handleSearchStart_explicit s q db uid sid hu hsid hq2
  have hraw : rawStep s (Event.submit q db) = handleSearchStart s q db := by
    simp [rawStep, hen, hqt, hq]
  have hresult : handleSearchStart s q db
      = handleSearchProceed s2 uid sid q s.currentPendingMessageId false := by
    rw [heq, hsave]
  have hchar := handleSearchProceed_saveFail s2 uid sid q s.currentPendingMessageId
  have hstageRes : (handleSearchStart s q db).currentDisplayStage
      = DisplayStage.fetchingLinks := by
    rw [hresult, hchar]
  have hstep : step s (Event.submit q db) = handleSearchStart s q db := by
    rw [step_eq_zeta, hraw]
    split
    · refine effectImmediate_of_blocked _ ?_
      simp [effectGuardBlocks, hstageRes]
    · rfl
  rw [hstep, hresult, hchar]
  refine ⟨rfl, hfp, ?_, ?_, ?_⟩
  · show s2.linkReqs ++ _ = s.linkReqs ++ _
    rw [hfl]
  · show s2.chatHistory ++ _ = s.chatHistory ++ _
    rw [hfh, hfn]
  · intro s3 q3 db3 hu3 hsid3 hqt3 hq3 hnew3 hen3
    have hq23 : ¬ jsTrim q3 = "" := by rw [hqt3]; exact hq3
    obtain ⟨uid3, hu3e⟩ : ∃ u, s3.user = some u := by
      cases h : s3.user with
      | none => exact absurd h hu3
      | some u => exact ⟨u, rfl⟩
    have habort : handleSearchStart s3 q3 db3
        = { s3 with
            isLoading := false
            error := some "Could not start a new chat session." } := by
      simp only [handleSearchStart, hu3e, if_neg hq23, hsid3, hnew3, Bool.false_eq_true,
        if_false]
    have hraw3 : rawStep s3 (Event.submit q3 db3) = handleSearchStart s3 q3 db3 := by
      simp [rawStep, hen3, hqt3, hq3]
    have hdeps3 : effectDepsChanged s3 (handleSearchStart s3 q3 db3) = false := by
      rw [habort]
      simp [effectDepsChanged]
    have hstep3 : step s3 (Event.submit q3 db3) = handleSearchStart s3 q3 db3 := by
      rw [step_eq_zeta, hraw3, hdeps3]
      simp
    rw [hstep3, habort]
    exact ⟨rfl, rfl⟩

/-- Witness for C6 at a concrete failing insert. -/
theorem initialSaveFailure_proceedsLocally_witness :
    (step idemState (Event.submit "q" ⟨true, true, false⟩)).error = none
    ∧ (step idemState (Event.submit "q" ⟨true, true, false⟩)).currentPendingMessageId
        = idemState.currentPendingMessageId
    ∧ (step idemState (Event.submit "q" ⟨true, true, false⟩)).linkReqs
        = idemState.linkReqs ++ [{ searchQuery := "q", savedId := none,
                                   pendingAtEntry := idemState.currentPendingMessageId }]
    ∧ (step idemState (Event.submit "q" ⟨true, true, false⟩)).chatHistory
        = idemState.chatHistory ++
          [{ id := MsgId.localId idemState.now, session_id := some 0, user_id := some 7,
             query := "q", response := none, fetchedLinks := none, error := none,
             stage := DisplayStage.fetchingLinks, created_at := none }] := by
  have h := initialSaveFailure_proceedsLocally idemState "q" ⟨true, true, false⟩ 7 0
    (by decide) (by decide) (by decide) (by decide) (by decide) rfl
  exact ⟨h.1, h.2.1, h.2.2.1, h.2.2.2.1⟩

/-- Counterexample to C6 as stated: after a failing initial insert the
link fetch is issued anyway (one in-flight link request), no user-visible
error is set, and the history carries a local-fallback item. -/
theorem initialSaveFailure_noAbort :
    localFallbackState.error = none
    ∧ localFallbackState.linkReqs.length = 1
    ∧ localFallbackState.currentPendingMessageId = none
    ∧ localFallbackState.chatHistory.map (fun ch => (ch.id, ch.stage))
        = [(MsgId.localId 0, DisplayStage.fetchingLinks)] := by
  refine ⟨by decide, by decide, by decide, by decide⟩

/-! ## Session renaming -/

theorem saveChatMessage_sessions (s : AppState) (d : SaveData) (f : Option MsgId) (ok : Bool) :
    (saveChatMessage s d f ok).1.sessions = s.store.sessions := by
  simp only [saveChatMessage]
  repeat' split
  all_goals rfl

theorem effectImmediate_pres (t : AppState) :
    (effectImmediate t).chatSessionsList = t.chatSessionsList
    ∧ (effectImmediate t).store = t.store
    ∧ (effectImmediate t).chatHistory = t.chatHistory
    ∧ (effectImmediate t).currentPendingMessageId = t.currentPendingMessageId
    ∧ (effectImmediate t).linkReqs = t.linkReqs
    ∧ (effectImmediate t).currentSessionId = t.currentSessionId := by
  simp only [effectImmediate, fetchAiAnalysisStart]
  repeat' split
  all_goals exact ⟨rfl, rfl, rfl, rfl, rfl, rfl⟩

theorem handleSearchProceed_pres (s : AppState) (uid sid : Nat) (q : String)
    (p : Option MsgId) (ok : Bool) :
    (handleSearchProceed s uid sid q p ok).chatSessionsList = s.chatSessionsList
    ∧ (handleSearchProceed s uid sid q p ok).store.sessions = s.store.sessions := by
  simp only [handleSearchProceed]
  split
  · exact ⟨rfl, saveChatMessage_sessions _ _ _ _⟩
  · exact ⟨rfl, saveChatMessage_sessions _ _ _ _⟩

theorem step_sessions_eq_rawStep (s : AppState) (e : Event) :
    (step s e).chatSessionsList = (rawStep s e).chatSessionsList
    ∧ (step s e).store.sessions = (rawStep s e).store.sessions := by
  rw [step_eq_zeta]
  split
  · exact ⟨(effectImmediate_pres _).1, by rw [(effectImmediate_pres _).2.1]⟩
  · exact ⟨rfl, rfl⟩

/-- `handleSearchStart` into a session that already has history never
touches the session list or the session rows: the rename guard requires
an empty history. -/
theorem handleSearchStart_noRename (s : AppState) (q : String) (db : SearchDbOutcomes)
    (uid sid : Nat) (hu : s.user = some uid) (hsid : s.currentSessionId = some sid)
    (htr : ¬ jsTrim q = "") (hne : ¬ s.chatHistory = []) :
    (handleSearchStart s q db).chatSessionsList = s.chatSessionsList
    ∧ (handleSearchStart s q db).store.sessions = s.store.sessions := by
  have hlen : (s.chatHistory.length == 0) = false := by
    cases hh : s.chatHistory with
    | nil => exact absurd hh hne
    | cons a l => rfl
  simp only [handleSearchStart, hu, if_neg htr, hsid, hlen, Bool.and_false,
    Bool.false_eq_true, if_false]
  split
  · exact ⟨(handleSearchProceed_pres _ _ _ _ _ _).1, (handleSearchProceed_pres _ _ _ _ _ _).2⟩
  · exact ⟨(handleSearchProceed_pres _ _ _ _ _ _).1, (handleSearchProceed_pres _ _ _ _ _ _).2⟩

/-- C7.  The first Submit into a default-named, still-empty session
renames it — in the list and in the store — to `sessionNameOf` of the
query; that name never exceeds the cap and ends in an ellipsis when
truncated; and any Submit into a session that already has messages leaves
every session name untouched. -/
theorem renameOnFirstMessage (s : AppState) (q : String) (db : SearchDbOutcomes)
    (uid sid : Nat) (sess : ChatSession) (row : DbSessionRow)
    (hu : s.user = some uid) (hsid : s.currentSessionId = some sid)
    (hen : searchFormEnabled s = true) (hqt : jsTrim q = q) (hq : ¬ q = "")
    (hfind : s.chatSessionsList.find? (fun c => c.id == sid) = some sess)
    (hname : sess.session_name = some DEFAULT_NEW_CHAT_NAME)
    (hhist : s.chatHistory = [])
    (hrow : s.store.sessions.find? (fun rr => rr.id == sid) = some row)
    (hrok : db.renameOk = true) :
    (∃ c ∈ (step s (Event.submit q db)).chatSessionsList,
        c.id = sid ∧ c.session_name = some (sessionNameOf q))
    ∧ (∃ r2 ∈ (step s (Event.submit q db)).store.sessions,
        r2.id = sid ∧ r2.session_name = sessionNameOf q)
    ∧ (∀ x : String, (sessionNameOf x).length ≤ SESSION_NAME_MAX_LENGTH)
    ∧ (∀ x : String, SESSION_NAME_MAX_LENGTH < x.length →
        ∃ p, sessionNameOf x = p ++ "..." ∧ p.length = SESSION_NAME_MAX_LENGTH - 3)
    ∧ (∀ (s4 : AppState) (q4 : String) (db4 : SearchDbOutcomes) (sid4 : Nat),
        s4.currentSessionId = some sid4 → ¬ s4.chatHistory = [] →
        (step s4 (Event.submit q4 db4)).chatSessionsList = s4.chatSessionsList
        ∧ (step s4 (Event.submit q4 db4)).store.sessions = s4.store.sessions) := by
  have hq2 : ¬ jsTrim q = "" := by rw [hqt]; exact hq
  have hcond : (sess.session_name == some DEFAULT_NEW_CHAT_NAME
      && s.chatHistory.length == 0) = true := by
    rw [hname, hhist]
    rfl
  have hstart : handleSearchStart s q db
      = handleSearchProceed
          { s with
            store := { s.store with
              sessions := s.store.sessions.map (fun r =>
                if r.id == sid then { row with session_name := sessionNameOf q } else r) }
            chatSessionsList := s.chatSessionsList.map (fun c =>
              if c.id == sid then
                { id := row.id, user_id := row.user_id, created_at := row.created_at,
                  session_name := some (sessionNameOf q) }
              else c) }
          uid sid q s.currentPendingMessageId db.saveOk := by
    simp only [handleSearchStart, hu, if_neg hq2, hsid, hfind, hcond, if_true, hrok, hrow]
  have hraw : rawStep s (Event.submit q db) = handleSearchStart s q db := by
    simp [rawStep, hen, hqt, hq]
  have hses := step_sessions_eq_rawStep s (Event.submit q db)
  have hlist : (step s (Event.submit q db)).chatSessionsList
      = s.chatSessionsList.map (fun c =>
          if c.id == sid then
            { id := row.id, user_id := row.user_id, created_at := row.created_at,
              session_name := some (sessionNameOf q) }
          else c) := by
    rw [hses.1, hraw, hstart, (handleSearchProceed_pres _ _ _ _ _ _).1]
  have hsesr : (step s (Event.submit q db)).store.sessions
      = s.store.sessions.map (fun r =>
          if r.id == sid then { row with session_name := sessionNameOf q } else r) := by
    rw [hses.2, hraw, hstart, (handleSearchProceed_pres _ _ _ _ _ _).2]
  have hsessid : (sess.id == sid) = true := by simpa using List.find?_some hfind
  have hrowsid : (row.id == sid) = true := by simpa using List.find?_some hrow
  have hrowid : row.id = sid := by simpa using hrowsid
  have hval : SESSION_NAME_MAX_LENGTH = 35 := rfl
  refine ⟨?_, ?_, ?_, ?_, ?_⟩
  · rw [hlist]
    refine ⟨_, List.mem_map_of_mem _ (List.mem_of_find?_eq_some hfind), ?_, ?_⟩
    · rw [if_pos hsessid]
      exact hrowid
    · rw [if_pos hsessid]
  · rw [hsesr]
    refine ⟨_, List.mem_map_of_mem _ (List.mem_of_find?_eq_some hrow), ?_, ?_⟩
    · rw [if_pos hrowsid]
      exact hrowid
    · rw [if_pos hrowsid]
  · intro x
    unfold sessionNameOf
    split
    · have h1 : (jsTake x (SESSION_NAME_MAX_LENGTH - 3) ++ "...").length
          = (jsTake x (SESSION_NAME_MAX_LENGTH - 3)).length + "...".length :=
        String.length_append _ _
      have h2 : (jsTake x (SESSION_NAME_MAX_LENGTH - 3)).length
          ≤ SESSION_NAME_MAX_LENGTH - 3 := List.length_take_le _ _
      have h3 : "...".length = 3 := rfl
      omega
    · next hx =>
      omega
  · intro x hx
    refine ⟨jsTake x (SESSION_NAME_MAX_LENGTH - 3), ?_, ?_⟩
    · unfold sessionNameOf
      rw [if_pos hx]
    · show (x.data.take (SESSION_NAME_MAX_LENGTH - 3)).length = SESSION_NAME_MAX_LENGTH - 3
      rw [List.length_take]
      have hxd : x.length = x.data.length := rfl
      omega
  · intro s4 q4 db4 sid4 hsid4 hne4
    have hses4 := step_sessions_eq_rawStep s4 (Event.submit q4 db4)
    have hsuff : (rawStep s4 (Event.submit q4 db4)).chatSessionsList = s4.chatSessionsList
        ∧ (rawStep s4 (Event.submit q4 db4)).store.sessions = s4.store.sessions := by
      simp only [rawStep]
      split
      · next hguard4 =>
        have hq4 : (jsTrim q4 == "") = false := by
          rw [Bool.and_eq_true] at hguard4
          simpa using hguard4.2
        have hq4' : ¬ jsTrim q4 = "" := by simpa using hq4
        cases hu4 : s4.user with
        | none =>
          have : handleSearchStart s4 (jsTrim q4) db4
              = { s4 with error := some "User not authenticated. Please login." } := by
            simp only [handleSearchStart, hu4]
          rw [this]
          exact ⟨rfl, rfl⟩
        | some uid4 =>
          by_cases htr : jsTrim (jsTrim q4) = ""
          · have : handleSearchStart s4 (jsTrim q4) db4
                = { s4 with error := some "Search query cannot be empty." } := by
              simp only [handleSearchStart, hu4, if_pos htr]
            rw [this]
            exact ⟨rfl, rfl⟩
          · exact handleSearchStart_noRename s4 (jsTrim q4) db4 uid4 sid4 hu4 hsid4 htr hne4
      · exact ⟨rfl, rfl⟩
    exact ⟨hses4.1.trans hsuff.1, hses4.2.trans hsuff.2⟩

/-- Witness for C7: the scenario query longer than the cap submitted
into a fresh session named by the default placeholder. -/
theorem renameOnFirstMessage_witness :
    (∃ c ∈ (step idemState
        (Event.submit "Explain CRISPR gene editing in detail please" ⟨true, true, true⟩)).chatSessionsList,
      c.id = 0
      ∧ c.session_name = some (sessionNameOf "Explain CRISPR gene editing in detail please"))
    ∧ (∃ r2 ∈ (step idemState
        (Event.submit "Explain CRISPR gene editing in detail please" ⟨true, true, true⟩)).store.sessions,
      r2.id = 0
      ∧ r2.session_name = sessionNameOf "Explain CRISPR gene editing in detail please")
    ∧ sessionNameOf "Explain CRISPR gene editing in detail please"
        = "Explain CRISPR gene editing in d" ++ "..." := by
  have h := renameOnFirstMessage idemState "Explain CRISPR gene editing in detail please"
    ⟨true, true, true⟩ 7 0
    { id := 0, user_id := 7, created_at := 0, session_name := some "New Chat" }
    { id := 0, user_id := 7, created_at := 0, session_name := "New Chat" }
    (by decide) (by decide) (by decide) (by decide) (by decide) (by decide) rfl
    (by decide) (by decide) rfl
  exact ⟨h.1, h.2.1, by decide⟩

/-! ## Stale asynchronous work after a session switch -/

theorem displayedThinkingAi_none (t : AppState) (h : t.currentPendingMessageId = none) :
    displayedThinkingAi t = none := by
  unfold displayedThinkingAi
  rw [h]
  have hb : ∀ ch : ChatMessage, (some ch.id == (none : Option MsgId)) = false := fun ch => rfl
  simp [hb]

theorem step_core_pres (s : AppState) (e : Event) :
    (step s e).chatHistory = (rawStep s e).chatHistory
    ∧ (step s e).currentPendingMessageId = (rawStep s e).currentPendingMessageId
    ∧ (step s e).currentSessionId = (rawStep s e).currentSessionId := by
  rw [step_eq_zeta]
  split
  · exact ⟨(effectImmediate_pres _).2.2.1, (effectImmediate_pres _).2.2.2.1,
      (effectImmediate_pres _).2.2.2.2.2⟩
  · exact ⟨rfl, rfl, rfl⟩

/-- C2 (amended).  Once the pending marker is cleared by a session
switch, late timer fires are complete no-ops, and a late network
response whose message id matches nothing in the newly displayed history
modifies no displayed message and shows nothing — provided no new query
is pending.  (With a new query pending, a late AI response is displayed
under it; see the counterexample.) -/
theorem staleAsyncDiscarded_afterSwitch (s : AppState)
    (hpend : s.currentPendingMessageId = none) :
    step s Event.timerFire = s
    ∧ (∀ (i : Nat) (r : AiReq) (out : AiOutcome) (ok : Bool),
        s.aiReqs[i]? = some r →
        (∀ ch ∈ s.chatHistory, ¬ r.forMessageId = some ch.id) →
        (step s (Event.aiResponse i out ok)).chatHistory = s.chatHistory
        ∧ displayedThinkingAi (step s (Event.aiResponse i out ok)) = none
        ∧ (step s (Event.aiResponse i out ok)).currentSessionId = s.currentSessionId)
    ∧ (∀ (i : Nat) (r : LinkReq) (out : LinkOutcome) (ok : Bool),
        s.linkReqs[i]? = some r →
        (∀ ch ∈ s.chatHistory, ¬ jsOr r.savedId r.pendingAtEntry = some ch.id) →
        (step s (Event.linkResponse i out ok)).chatHistory = s.chatHistory
        ∧ displayedThinkingAi (step s (Event.linkResponse i out ok)) = none) := by
  refine ⟨?_, ?_, ?_⟩
  · apply step_of_rawStep_self
    show timerTick s = s
    simp [timerTick, effectGuardBlocks_of_pending_none s hpend]
  · intro i r out ok hreq hno
    have hraw : rawStep s (Event.aiResponse i out ok)
        = fetchAiAnalysisCont { s with aiReqs := s.aiReqs.eraseIdx i } r out ok := by
      simp [rawStep, hreq]
    have hmapid : ∀ (g : ChatMessage → ChatMessage),
        (∀ ch ∈ s.chatHistory, (r.forMessageId == some ch.id) = false) →
        s.chatHistory.map (fun ch =>
          if r.forMessageId == some ch.id then g ch else ch) = s.chatHistory := by
      intro g hfalse
      apply map_eq_self_of_eq
      intro ch hch
      rw [if_neg]
      intro hcond
      exact hno ch hch (beq_iff_eq.mp hcond)
    have hfalse : ∀ ch ∈ s.chatHistory, (r.forMessageId == some ch.id) = false := by
      intro ch hch
      cases hb : r.forMessageId == some ch.id with
      | false => rfl
      | true => exact absurd (beq_iff_eq.mp hb) (hno ch hch)
    have hcontHist : (fetchAiAnalysisCont { s with aiReqs := s.aiReqs.eraseIdx i } r out ok).chatHistory
        = s.chatHistory := by
      cases out with
      | success resp =>
        simp only [fetchAiAnalysisCont]
        exact hmapid _ hfalse
      | failure body =>
        simp only [fetchAiAnalysisCont]
        exact hmapid _ hfalse
    have hcontPend : (fetchAiAnalysisCont { s with aiReqs := s.aiReqs.eraseIdx i } r out ok).currentPendingMessageId
        = none := by
      cases out with
      | success resp => exact hpend
      | failure body => rfl
    have hcontSid : (fetchAiAnalysisCont { s with aiReqs := s.aiReqs.eraseIdx i } r out ok).currentSessionId
        = s.currentSessionId := by
      cases out with
      | success resp => rfl
      | failure body => rfl
    have hcore := step_core_pres s (Event.aiResponse i out ok)
    refine ⟨?_, ?_, ?_⟩
    · rw [hcore.1, hraw, hcontHist]
    · apply displayedThinkingAi_none
      rw [hcore.2.1, hraw, hcontPend]
    · rw [hcore.2.2, hraw, hcontSid]
  · intro i r out ok hreq hno
    have hraw : rawStep s (Event.linkResponse i out ok)
        = handleSearchCont { s with linkReqs := s.linkReqs.eraseIdx i } r out ok := by
      simp [rawStep, hreq]
    have hfalse : ∀ ch ∈ s.chatHistory, (jsOr r.savedId r.pendingAtEntry == some ch.id) = false := by
      intro ch hch
      cases hb : jsOr r.savedId r.pendingAtEntry == some ch.id with
      | false => rfl
      | true => exact absurd (beq_iff_eq.mp hb) (hno ch hch)
    have hmapid : ∀ (g : ChatMessage → ChatMessage),
        s.chatHistory.map (fun ch =>
          if jsOr r.savedId r.pendingAtEntry == some ch.id then g ch else ch) = s.chatHistory := by
      intro g
      apply map_eq_self_of_eq
      intro ch hch
      rw [if_neg]
      intro hcond
      exact hno ch hch (beq_iff_eq.mp hcond)
    have hcontHist : (handleSearchCont { s with linkReqs := s.linkReqs.eraseIdx i } r out ok).chatHistory
        = s.chatHistory := by
      cases out with
      | success resp =>
        simp only [handleSearchCont]
        split
        · exact hmapid _
        · simp only [fetchAiAnalysisStart]
          exact hmapid _
      | failure body =>
        simp only [handleSearchCont]
        exact hmapid _
    have hcontPend : (handleSearchCont { s with linkReqs := s.linkReqs.eraseIdx i } r out ok).currentPendingMessageId
        = none := by
      cases out with
      | success resp =>
        simp only [handleSearchCont]
        split
        · exact hpend
        · exact hpend
      | failure body => rfl
    have hcore := step_core_pres s (Event.linkResponse i out ok)
    refine ⟨?_, ?_⟩
    · rw [hcore.1, hraw, hcontHist]
    · apply displayedThinkingAi_none
      rw [hcore.2.1, hraw, hcontPend]

/-- Witness for C2 at the concrete switch scenario: after switching back
to session 0 while `q1` of session 1 is mid-AI-fetch, a timer fire does
nothing and the late AI response changes no displayed message. -/
theorem staleAsyncDiscarded_afterSwitch_witness :
    step staleMidState Event.timerFire = staleMidState
    ∧ (step staleMidState (Event.aiResponse 0 (AiOutcome.success respB) true)).chatHistory
        = staleMidState.chatHistory
    ∧ displayedThinkingAi
        (step staleMidState (Event.aiResponse 0 (AiOutcome.success respB) true)) = none := by
  have h := staleAsyncDiscarded_afterSwitch staleMidState (by decide)
  have h2 := h.2.1 0
    { query := "q1", linksData := { query := "q1", results := [⟨"t", "u", none⟩], total_results := some 1 },
      forMessageId := some (MsgId.dbId 3) }
    (AiOutcome.success respB) true (by decide) (by decide)
  exact ⟨h.1, h2.1, h2.2.1⟩

/-- Counterexample to C2 as stated: if a new query `q2` is already
pending in session 0 when the stale AI response of `q1` (message 3 of
session 2) arrives, that response lands in the shared analysis buffer and
is displayed in the thinking bubble of the pending message of session 0. -/
theorem staleAiResponse_displayedUnderNewSession :
    staleRespState.currentSessionId = some 0
    ∧ displayedThinkingAi staleRespState = some respB
    ∧ staleRespState.currentPendingMessageId = some (MsgId.dbId 4)
    ∧ (∃ rowQ1 ∈ staleRespState.store.messages,
        rowQ1.id = 3 ∧ rowQ1.session_id = 2 ∧ rowQ1.response_data = some respB)
    ∧ (∀ ch ∈ staleRespState.chatHistory, ch.session_id = some 0) := by
  refine ⟨by decide, by decide, by decide, by decide, by decide⟩

/-! ## The pending-marker invariant -/

theorem save_update_nextId (s : AppState) (d : SaveData) (f : Option MsgId) (ok : Bool)
    (hq : d.query = none) : (saveChatMessage s d f ok).1.nextId = s.store.nextId := by
  simp only [saveChatMessage]
  repeat' split
  all_goals try rfl
  all_goals simp_all

theorem save_update_rows (s : AppState) (d : SaveData) (f : Option MsgId) (ok : Bool)
    (hq : d.query = none) :
    ∀ r' ∈ (saveChatMessage s d f ok).1.messages, ∃ r0 ∈ s.store.messages, r'.id = r0.id := by
  simp only [saveChatMessage]
  repeat' split
  all_goals try exact fun r' hr' => ⟨r', hr', rfl⟩
  all_goals try simp_all
  all_goals
    rename_i nn heq1 hok xx rowname hfound
    intro a ha
    refine ⟨a, ha, ?_⟩
    split
    · next hcond =>
      have h1 := List.find?_some hfound
      exact (eq_of_beq h1).trans hcond.symm
    · rfl

/-- `handleSearchProceed` when the initial insert succeeds: the message
row is inserted with the fresh store id, the history gains the matching
item, the pending marker is set to it, and the link fetch is issued. -/
theorem handleSearchProceed_saveOk (s : AppState) (uid sid : Nat) (q : String)
    (p : Option MsgId) (hu : s.user = some uid) (hs : s.currentSessionId = some sid) :
    handleSearchProceed s uid sid q p true
      = { s with
          currentQuery := q
          isLoading := true
          error := none
          fetchedLinksData := none
          aiAnalysisData := none
          currentLinkIndex := 0
          currentDisplayStage := DisplayStage.fetchingLinks
          loadingMessage := "Fetching relevant links..."
          store := { s.store with
            messages := s.store.messages ++
              [{ id := s.store.nextId, session_id := sid, user_id := uid,
                 query_text := q, response_data := none, created_at := s.store.nextId }]
            nextId := s.store.nextId + 1 }
          currentPendingMessageId := some (MsgId.dbId s.store.nextId)
          chatHistory := s.chatHistory ++
            [{ id := MsgId.dbId s.store.nextId, session_id := some sid, user_id := some uid,
               query := q, response := none, fetchedLinks := none, error := none,
               stage := DisplayStage.fetchingLinks, created_at := some s.store.nextId }]
          linkReqs := s.linkReqs ++
            [{ searchQuery := q, savedId := some (MsgId.dbId s.store.nextId),
               pendingAtEntry := p }] } := by
  simp only [handleSearchProceed, saveChatMessage, hu, hs]
  cases s.currentPendingMessageId <;> rfl

theorem inv_proceed (s : AppState) (uid sid : Nat) (q : String) (p : Option MsgId) (ok : Bool)
    (hInv : Inv s) (hu : s.user = some uid) (hs : s.currentSessionId = some sid) :
    Inv (handleSearchProceed s uid sid q p ok) := by
  cases ok with
  | false =>
    rw [handleSearchProceed_saveFail]
    constructor
    · constructor
      · exact hInv.1.1
      · intro ch hch n hid
        rcases List.mem_append.1 hch with h1 | h2
        · exact hInv.1.2 ch h1 n hid
        · rw [List.mem_singleton.1 h2] at hid
          exact MsgId.noConfusion hid
    · intro m hm
      obtain ⟨⟨sid0, hsid0, ch, hch, hchid, hchst, hchsess⟩, hall⟩ := hInv.2 m hm
      refine ⟨⟨sid0, hsid0, ch, List.mem_append_left _ hch, hchid, hchst, hchsess⟩, ?_⟩
      intro ch' hch' hid'
      rcases List.mem_append.1 hch' with h1 | h2
      · exact hall ch' h1 hid'
      · rw [List.mem_singleton.1 h2]
        rfl
  | true =>
    rw [handleSearchProceed_saveOk s uid sid q p hu hs]
    constructor
    · constructor
      · intro row hrow
        rcases List.mem_append.1 hrow with h1 | h2
        · exact Nat.lt_succ_of_lt (hInv.1.1 row h1)
        · rw [List.mem_singleton.1 h2]
          exact Nat.lt_succ_self _
      · intro ch hch n hid
        rcases List.mem_append.1 hch with h1 | h2
        · exact Nat.lt_succ_of_lt (hInv.1.2 ch h1 n hid)
        · rw [List.mem_singleton.1 h2] at hid
          injection hid with h
          rw [← h]
          exact Nat.lt_succ_self _
    · intro m hm
      have hm' : m = MsgId.dbId s.store.nextId := by
        injection hm with h
        exact h.symm
      subst hm'
      constructor
      · exact ⟨sid, hs, _, List.mem_append_right _ (List.mem_singleton_self _), rfl, rfl, rfl⟩
      · intro ch' hch' hid'
        rcases List.mem_append.1 hch' with h1 | h2
        · exact absurd (hInv.1.2 ch' h1 _ hid') (Nat.lt_irrefl _)
        · rw [List.mem_singleton.1 h2]
          rfl

theorem inv_effect (t : AppState) (h : Inv t) : Inv (effectImmediate t) := by
  obtain ⟨-, hst, hch, hpend, -, hsid⟩ := effectImmediate_pres t
  constructor
  · constructor
    · intro row hrow
      rw [hst] at hrow ⊢
      exact h.1.1 row hrow
    · intro ch hch2 n hid
      rw [hch] at hch2
      rw [hst]
      exact h.1.2 ch hch2 n hid
  · intro m hm
    rw [hpend] at hm
    obtain ⟨⟨sid0, hsid0, ch, hchm, h1, h2, h3⟩, hall⟩ := h.2 m hm
    refine ⟨⟨sid0, ?_, ch, ?_, h1, h2, h3⟩, ?_⟩
    · rw [hsid]
      exact hsid0
    · rw [hch]
      exact hchm
    · intro ch' hch' hid'
      rw [hch] at hch'
      exact hall ch' hch' hid'

theorem inv_timer (s : AppState) (h : Inv s) : Inv (timerTick s) := by
  simp only [timerTick]
  repeat' split
  all_goals try exact h
  constructor
  · constructor
    · exact h.1.1
    · intro ch hch n hid
      obtain ⟨a, ha, rfl⟩ := List.mem_map.1 hch
      refine h.1.2 a ha n ?_
      revert hid
      split
      · exact fun hh => hh
      · exact fun hh => hh
  · intro m hm
    exact Option.noConfusion hm

theorem inv_select (s : AppState) (sid : Nat) (readOk : Bool) (h : Inv s) :
    Inv (handleSelectChat s sid readOk) := by
  simp only [handleSelectChat]
  split
  · exact h
  · split
    · constructor
      · refine ⟨h.1.1, ?_⟩
        intro ch hch n hid
        obtain ⟨msg, hmsg, rfl⟩ := List.mem_map.1 hch
        have hmn : msg.id = n := by
          injection hid
        rw [← hmn]
        exact h.1.1 msg (List.mem_of_mem_filter hmsg)
      · intro m hm
        exact Option.noConfusion hm
    · constructor
      · refine ⟨h.1.1, ?_⟩
        intro ch hch n hid
        exact absurd hch (List.not_mem_nil ch)
      · intro m hm
        exact Option.noConfusion hm

theorem inv_newChat (s : AppState) (dbOk : Bool) (h : Inv s) : Inv (handleNewChat s dbOk) := by
  simp only [handleNewChat]
  split
  · exact h
  · split
    · refine ⟨⟨?_, ?_⟩, ?_⟩
      · exact fun row hrow => Nat.lt_succ_of_lt (h.1.1 row hrow)
      · intro ch hch n hid
        exact absurd hch (List.not_mem_nil ch)
      · intro m hm
        exact Option.noConfusion hm
    · refine ⟨⟨h.1.1, ?_⟩, ?_⟩
      · intro ch hch n hid
        exact absurd hch (List.not_mem_nil ch)
      · intro m hm
        exact Option.noConfusion hm

theorem inv_signOut (s : AppState) (h : Inv s) : Inv (handleSignOut s) := by
  refine ⟨⟨h.1.1, ?_⟩, ?_⟩
  · intro ch hch n hid
    exact absurd hch (List.not_mem_nil ch)
  · intro m hm
    exact Option.noConfusion hm

theorem ite_update_resp_fields (c : Bool) (ch : ChatMessage) (a : AiResponse) :
    (if c = true then { ch with response := some a } else ch).id = ch.id
    ∧ (if c = true then { ch with response := some a } else ch).stage = ch.stage
    ∧ (if c = true then { ch with response := some a } else ch).session_id = ch.session_id := by
  split <;> exact ⟨rfl, rfl, rfl⟩

theorem ite_update_err_id (c : Bool) (ch : ChatMessage) (msg : String) :
    (if c = true then { ch with error := some msg, stage := DisplayStage.error } else ch).id
      = ch.id := by
  split <;> rfl

theorem ite_update_links_fields (c : Bool) (ch : ChatMessage) (d : FetchedLinksResponse)
    (st : DisplayStage) :
    (if c = true then { ch with fetchedLinks := some d, stage := st } else ch).id = ch.id
    ∧ (if c = true then { ch with fetchedLinks := some d, stage := st } else ch).session_id
        = ch.session_id := by
  split <;> exact ⟨rfl, rfl⟩

theorem ite_update_links_stage (c : Bool) (ch : ChatMessage) (d : FetchedLinksResponse)
    (st : DisplayStage) (h1 : ch.stage.isTerminal = false) (h2 : st.isTerminal = false) :
    (if c = true then { ch with fetchedLinks := some d, stage := st } else ch).stage.isTerminal
      = false := by
  split
  · exact h2
  · exact h1

theorem isTerminal_ite_gather (c : Prop) [Decidable c] :
    (if c then DisplayStage.gatheringLinks else DisplayStage.fetchingAiAnalysis).isTerminal
      = false := by
  split <;> rfl

theorem inv_aiCont (s : AppState) (r : AiReq) (out : AiOutcome) (ok : Bool) (h : Inv s) :
    Inv (fetchAiAnalysisCont s r out ok) := by
  cases out with
  | success a =>
    simp only [fetchAiAnalysisCont]
    constructor
    · constructor
      · intro row hrow
        obtain ⟨r0, hr0, hid⟩ :=
          save_update_rows _ ⟨none, some a, none⟩ r.forMessageId ok rfl row hrow
        have hnx := save_update_nextId
          { s with
            aiAnalysisData := some a
            currentDisplayStage := DisplayStage.subquestions }
          ⟨none, some a, none⟩ r.forMessageId ok rfl
        rw [hid]
        exact hnx ▸ h.1.1 r0 hr0
      · intro ch hch n hid
        obtain ⟨a0, ha0, rfl⟩ := List.mem_map.1 hch
        have hnx := save_update_nextId
          { s with
            aiAnalysisData := some a
            currentDisplayStage := DisplayStage.subquestions }
          ⟨none, some a, none⟩ r.forMessageId ok rfl
        refine hnx ▸ h.1.2 a0 ha0 n ?_
        exact ((ite_update_resp_fields (r.forMessageId == some a0.id) a0 a).1).symm.trans hid
    · intro m hm
      obtain ⟨⟨sid0, hsid0, ch, hchm, h1, h2, h3⟩, hall⟩ := h.2 m hm
      constructor
      · refine ⟨sid0, hsid0,
          if r.forMessageId == some ch.id then { ch with response := some a } else ch,
          List.mem_map_of_mem _ hchm, ?_, ?_, ?_⟩
        · exact (ite_update_resp_fields (r.forMessageId == some ch.id) ch a).1.trans h1
        · rw [(ite_update_resp_fields (r.forMessageId == some ch.id) ch a).2.1]
          exact h2
        · rw [(ite_update_resp_fields (r.forMessageId == some ch.id) ch a).2.2]
          exact h3
      · intro ch' hch' hid'
        obtain ⟨a0, ha0, rfl⟩ := List.mem_map.1 hch'
        refine ((ite_update_resp_fields (r.forMessageId == some a0.id) a0 a).2.1).symm ▸ ?_
        exact hall a0 ha0
          (((ite_update_resp_fields (r.forMessageId == some a0.id) a0 a).1).symm.trans hid')
  | failure body =>
    simp only [fetchAiAnalysisCont]
    constructor
    · constructor
      · intro row hrow
        obtain ⟨r0, hr0, hid⟩ :=
          save_update_rows _ ⟨none, none,
            some (jsStrOr (aiErrorMessage body) "An error occurred while fetching AI analysis.")⟩
            r.forMessageId ok rfl row hrow
        have hnx := save_update_nextId s
          ⟨none, none,
            some (jsStrOr (aiErrorMessage body) "An error occurred while fetching AI analysis.")⟩
          r.forMessageId ok rfl
        rw [hid]
        exact hnx ▸ h.1.1 r0 hr0
      · intro ch hch n hid
        obtain ⟨a0, ha0, rfl⟩ := List.mem_map.1 hch
        have hnx := save_update_nextId s
          ⟨none, none,
            some (jsStrOr (aiErrorMessage body) "An error occurred while fetching AI analysis.")⟩
          r.forMessageId ok rfl
        refine hnx ▸ h.1.2 a0 ha0 n ?_
        exact (ite_update_err_id (r.forMessageId == some a0.id) a0 _).symm.trans hid
    · intro m hm
      exact Option.noConfusion hm

theorem inv_searchCont (s : AppState) (r : LinkReq) (out : LinkOutcome) (ok : Bool) (h : Inv s) :
    Inv (handleSearchCont s r out ok) := by
  cases out with
  | success resp =>
    simp only [handleSearchCont, fetchAiAnalysisStart]
    split
    all_goals
      constructor
      · refine ⟨h.1.1, ?_⟩
        intro ch hch n hid
        obtain ⟨a0, ha0, rfl⟩ := List.mem_map.1 hch
        refine h.1.2 a0 ha0 n ?_
        exact ((ite_update_links_fields _ a0 resp _).1).symm.trans hid
      · intro m hm
        obtain ⟨⟨sid0, hsid0, ch, hchm, h1, h2, h3⟩, hall⟩ := h.2 m hm
        constructor
        · refine ⟨sid0, hsid0, _, List.mem_map_of_mem _ hchm, ?_, ?_, ?_⟩
          · exact (ite_update_links_fields _ ch resp _).1.trans h1
          · exact ite_update_links_stage _ ch resp _ h2 rfl
          · exact (ite_update_links_fields _ ch resp _).2.symm ▸ h3
        · intro ch' hch' hid'
          obtain ⟨a0, ha0, rfl⟩ := List.mem_map.1 hch'
          exact ite_update_links_stage _ a0 resp _
            (hall a0 ha0 (((ite_update_links_fields _ a0 resp _).1).symm.trans hid')) rfl
  | failure body =>
    simp only [handleSearchCont]
    constructor
    · constructor
      · intro row hrow
        revert hrow
        split
        · next hc =>
          intro hrow
          obtain ⟨r0, hr0, hid⟩ := save_update_rows s
            ⟨none, none,
              some (jsStrOr (linkErrorMessage body) "An unknown error occurred during search.")⟩
            (jsOr r.savedId r.pendingAtEntry) ok rfl row hrow
          have hnx := save_update_nextId s
            ⟨none, none,
              some (jsStrOr (linkErrorMessage body) "An unknown error occurred during search.")⟩
            (jsOr r.savedId r.pendingAtEntry) ok rfl
          rw [hid]
          exact hnx ▸ h.1.1 r0 hr0
        · exact fun hrow => h.1.1 row hrow
      · intro ch hch n hid
        obtain ⟨a0, ha0, rfl⟩ := List.mem_map.1 hch
        have hida : a0.id = MsgId.dbId n :=
          (ite_update_err_id (jsOr r.savedId r.pendingAtEntry == some a0.id) a0 _).symm.trans hid
        split
        · next hc =>
          have hnx := save_update_nextId s
            ⟨none, none,
              some (jsStrOr (linkErrorMessage body) "An unknown error occurred during search.")⟩
            (jsOr r.savedId r.pendingAtEntry) ok rfl
          exact hnx ▸ h.1.2 a0 ha0 n hida
        · exact h.1.2 a0 ha0 n hida
    · intro m hm
      exact Option.noConfusion hm

theorem inv_start (s : AppState) (q : String) (db : SearchDbOutcomes) (h : Inv s) :
    Inv (handleSearchStart s q db) := by
  simp only [handleSearchStart]
  split
  · exact h
  · next uid huser =>
    split
    · exact h
    · split
      · next hcsid =>
        split
        · refine inv_proceed _ uid _ _ _ _ ?_ ?_ ?_
          · constructor
            · constructor
              · exact fun row hrow => Nat.lt_succ_of_lt (h.1.1 row hrow)
              · intro ch hch n hid
                exact absurd hch (List.not_mem_nil ch)
            · intro m hm
              obtain ⟨⟨sid0, hsid0, -⟩, -⟩ := h.2 m hm
              rw [hcsid] at hsid0
              exact Option.noConfusion hsid0
          · exact huser
          · rfl
        · exact h
      · next sid0 hcsid =>
        refine inv_proceed _ uid sid0 _ _ _ ?_ ?_ ?_
        · repeat' split
          all_goals exact h
        · repeat' split
          all_goals exact huser
        · repeat' split
          all_goals exact hcsid

theorem inv_rawStep (s : AppState) (e : Event) (h : Inv s) : Inv (rawStep s e) := by
  cases e with
  | submit q db =>
    simp only [rawStep]
    split
    · exact inv_start s (jsTrim q) db h
    · exact h
  | linkResponse i out ok =>
    simp only [rawStep]
    split
    · next r heq => exact inv_searchCont _ r out ok h
    · exact h
  | aiResponse i out ok =>
    simp only [rawStep]
    split
    · next r heq => exact inv_aiCont _ r out ok h
    · exact h
  | timerFire => exact inv_timer s h
  | selectChat sid ok => exact inv_select s sid ok h
  | newChat ok =>
    simp only [rawStep]
    split
    · exact inv_newChat s ok h
    · exact h
  | selectModel m =>
    simp only [rawStep]
    split
    · exact h
    · exact h
  | signOut => exact inv_signOut s h

theorem inv_step (s : AppState) (e : Event) (h : Inv s) : Inv (step s e) := by
  rw [step_eq_zeta]
  split
  · exact inv_effect _ (inv_rawStep s e h)
  · exact inv_rawStep s e h

theorem inv_mkInit (uid : Nat) : Inv (mkInit uid) := by
  constructor
  · constructor
    · intro row hrow
      exact absurd hrow (List.not_mem_nil row)
    · intro ch hch n hid
      exact absurd hch (List.not_mem_nil ch)
  · intro m hm
    exact Option.noConfusion hm

theorem invariant_holds (uid : Nat) (s : AppState) (h : Reachable uid s) : Inv s := by
  induction h with
  | init => exact inv_mkInit uid
  | next t e hr ih => exact inv_step t e ih

/-- C1.  The single pending-message marker is sound in every reachable
state: whenever it is set it identifies a message of the active session,
present in the chat history in a non-terminal stage, and no history item
carrying the marked id is in a terminal stage — the marker is cleared
(only) by the transitions into `final` and `error`.  The per-session
at-most-one-non-terminal reading of the claim is refuted separately. -/
theorem pendingMarker_invariant (uid : Nat) (s : AppState) (h : Reachable uid s) :
    PendingInv s :=
  (invariant_holds uid s h).2

theorem pendingMarker_invariant_witness :
    twoPendingState.currentPendingMessageId = some (MsgId.dbId 2)
    ∧ ((∃ sid, twoPendingState.currentSessionId = some sid
          ∧ ∃ ch ∈ twoPendingState.chatHistory, ch.id = MsgId.dbId 2
            ∧ ch.stage.isTerminal = false ∧ ch.session_id = some sid)
        ∧ ∀ ch ∈ twoPendingState.chatHistory, ch.id = MsgId.dbId 2
            → ch.stage.isTerminal = false) :=
  ⟨by decide,
   pendingMarker_invariant 7 twoPendingState
     (reachable_runEvents 7 (mkInit 7) _ Reachable.init) (MsgId.dbId 2) (by decide)⟩

/-- Counterexample to the at-most-one-pending-message-per-session part of
the claim: submitting a second query while the first is still revealing
links (`gatheringLinks`, where the search form is enabled) yields a
reachable state with two non-terminal messages of the same session — the
marker moves to the new message and the abandoned one stays non-terminal
forever. -/
theorem twoNonTerminalMessages_reachable :
    Reachable 7 twoPendingState
    ∧ nonTerminalCount twoPendingState 0 = 2
    ∧ twoPendingState.currentPendingMessageId = some (MsgId.dbId 2)
    ∧ twoPendingState.chatHistory.map
        (fun (ch : ChatMessage) => (ch.id, ch.stage, ch.session_id))
        = [(MsgId.dbId 1, DisplayStage.gatheringLinks, some 0),
           (MsgId.dbId 2, DisplayStage.fetchingLinks, some 0)] :=
  ⟨reachable_runEvents 7 (mkInit 7) _ Reachable.init, by decide, by decide, by decide⟩
